import Mathlib

/-! Estuary shuttle: command dispatch, pin reconciliation, aggregation and
transfers (cmd/estuary-shuttle/rpc.go)

A shallow embedding of the shuttle's RPC handlers.  The shuttle value carries
the relational store (three tables kept in insertion order), the record of
operations handed to the pin manager, the outbound message channel, the block
store, the goroutines spawned with the go statement, the transfer tracker, the
answers of the external transfer client and commP memoizer, and a script that
decides which calls to the store and block store report a failure.

Handlers are state-passing functions returning the Go error (none for nil)
together with the resulting shuttle.
-/

namespace Estuary

/-! ## Protocol types (drpc/rpc.go) -/

/-- Content identifier (cid.Cid), represented by its string form. -/
structure Cid where
  str : String
deriving DecidableEq, Repr

/-- The undefined content identifier cid.Undef, the Go zero value of cid.Cid. -/
def Cid.Undef : Cid := ⟨""⟩

/-- The drpc.AddPin command parameters (peer hints are never read by rpc.go). -/
structure AddPin where
  DBID : Nat
  UserId : Nat
  Cid : Cid
deriving DecidableEq, Repr

/-- The drpc.ContentFetch entry of a TakeContent command. -/
structure ContentFetch where
  ID : Nat
  Cid : Cid
  UserID : Nat
deriving DecidableEq, Repr

/-- The drpc.TakeContent command parameters (source hints are never read by rpc.go). -/
structure TakeContent where
  Contents : List ContentFetch
deriving DecidableEq, Repr

/-- The drpc.AggregateContent command parameters. -/
structure AggregateContent where
  DBID : Nat
  UserID : Nat
  Contents : List Nat
  Root : Cid
  ObjData : List UInt8
deriving DecidableEq, Repr

/-- The address.Address of a miner, represented by its string form. -/
structure Address where
  str : String
deriving DecidableEq, Repr

/-- The datatransfer.ChannelID of a transfer; the peers are represented by
their string forms. -/
structure ChannelID where
  Initiator : String
  Responder : String
  ID : Nat
deriving DecidableEq, Repr

/-- ChannelID.String(), which formats the three parts as %s-%s-%d. -/
def ChannelID.String (c : ChannelID) : String :=
  c.Initiator ++ "-" ++ c.Responder ++ "-" ++ toString c.ID

/-- The drpc.ComputeCommP command parameters. -/
structure ComputeCommP where
  Data : Cid
deriving DecidableEq, Repr

/-- The drpc.StartTransfer command parameters. -/
structure StartTransfer where
  DealDBID : Nat
  ContentID : Nat
  Miner : Address
  PropCid : Cid
  DataCid : Cid
deriving DecidableEq, Repr

/-- The drpc.ReqTxStatus command parameters. -/
structure ReqTxStatus where
  DealDBID : Nat
  ChanID : ChannelID
deriving DecidableEq, Repr

/-- The drpc.CmdParams record: one optional pointer per command variant. -/
structure CmdParams where
  AddPin : Option AddPin := none
  ComputeCommP : Option ComputeCommP := none
  TakeContent : Option TakeContent := none
  AggregateContent : Option AggregateContent := none
  StartTransfer : Option StartTransfer := none
  ReqTxStatus : Option ReqTxStatus := none
deriving DecidableEq, Repr

/-- The drpc.Command sent from the primary to the shuttle. -/
structure Command where
  Op : String
  Params : CmdParams
deriving DecidableEq, Repr

def CMD_ComputeCommP : String := "ComputeCommP"
def CMD_AddPin : String := "AddPin"
def CMD_TakeContent : String := "TakeContent"
def CMD_AggregateContent : String := "AggregateContent"
def CMD_StartTransfer : String := "StartTransfer"
def CMD_ReqTxStatus : String := "ReqTxStatus"

/-- The drpc.UpdatePinStatus message parameters. -/
structure UpdatePinStatus where
  DBID : Nat
  Status : String
deriving DecidableEq, Repr

/-- The drpc.PinObj entry of a PinComplete message. -/
structure PinObj where
  Cid : Cid
  Size : Int
deriving DecidableEq, Repr

/-- The drpc.PinComplete message parameters. -/
structure PinComplete where
  DBID : Nat
  Size : Int
  Objects : List PinObj
deriving DecidableEq, Repr

/-- The drpc.CommPComplete message parameters. -/
structure CommPComplete where
  Data : Cid
  CommP : Cid
  Size : Nat
deriving DecidableEq, Repr

/-- The drpc.TransferStarted message parameters. -/
structure TransferStarted where
  DealDBID : Nat
  Chanid : String
deriving DecidableEq, Repr

/-- The filclient.ChannelState snapshot carried by a TransferStatus message;
only the two fields rpc.go reads are kept. -/
structure ChannelState where
  Status : Nat
  Message : String
deriving DecidableEq, Repr

/-- The drpc.TransferStatus message parameters. -/
structure TransferStatus where
  Chanid : String := ""
  DealDBID : Nat := 0
  State : Option ChannelState := none
  Failed : Bool := false
  Message : String := ""
deriving DecidableEq, Repr

/-- The drpc.ShuttleUpdate message parameters. -/
structure ShuttleUpdate where
  BlockstoreSize : Nat
  BlockstoreFree : Nat
  NumPins : Int
  PinQueueSize : Int
deriving DecidableEq, Repr

/-- The drpc.MsgParams record: one optional pointer per message variant. -/
structure MsgParams where
  UpdatePinStatus : Option UpdatePinStatus := none
  PinComplete : Option PinComplete := none
  CommPComplete : Option CommPComplete := none
  TransferStatus : Option TransferStatus := none
  TransferStarted : Option TransferStarted := none
  ShuttleUpdate : Option ShuttleUpdate := none
deriving DecidableEq, Repr

/-- The drpc.Message sent from the shuttle to the primary. -/
structure Message where
  Op : String
  Params : MsgParams
deriving DecidableEq, Repr

def OP_UpdatePinStatus : String := "UpdatePinStatus"
def OP_PinComplete : String := "PinComplete"
def OP_CommPComplete : String := "CommPComplete"
def OP_TransferStarted : String := "TransferStarted"
def OP_TransferStatus : String := "TransferStatus"
def OP_ShuttleUpdate : String := "ShuttleUpdate"

/-! ## Store records -/

/-- Modelled from the spec: the Pin row type, declared outside rpc.go.  The
fields are the ones rpc.go reads and writes; the defaults are Go zero values. -/
structure Pin where
  ID : Nat := 0
  Content : Nat := 0
  Cid : Cid := ⟨""⟩
  UserID : Nat := 0
  Size : Int := 0
  Active : Bool := false
  Failed : Bool := false
  Pinning : Bool := false
  Aggregate : Bool := false
deriving DecidableEq, Repr

/-- Modelled from the spec: the Object row type, declared outside rpc.go. -/
structure Object where
  ID : Nat := 0
  Cid : Cid := ⟨""⟩
  Size : Int := 0
deriving DecidableEq, Repr

/-- Modelled from the spec: the ObjRef row type, declared outside rpc.go. -/
structure ObjRef where
  ID : Nat := 0
  Pin : Nat := 0
  Object : Nat := 0
deriving DecidableEq, Repr

/-- Modelled from the spec: the pinner.PinningOperation record (package pinner
is outside rpc.go), the queued unit of work handed to the pin-execution engine;
the fields are the ones rpc.go sets. -/
structure PinningOperation where
  Obj : Cid
  ContId : Nat
  UserId : Nat
  Status : String
  SkipLimiter : Bool
deriving DecidableEq, Repr

/-- A block held by the block store: raw data and its cid. -/
structure Block where
  data : List UInt8
  cid : Cid
deriving DecidableEq, Repr

/-- The three tables of the relational store, each in insertion order. -/
structure Store where
  pins : List Pin := []
  objects : List Object := []
  objRefs : List ObjRef := []
deriving DecidableEq, Repr

/-- The context handed to a handler: only whether it has been cancelled.
handleRpcCmd passes context.TODO(), which is never cancelled. -/
structure Ctx where
  done : Bool
deriving DecidableEq, Repr

/-- The context.TODO() value. -/
def Ctx.TODO : Ctx := ⟨false⟩

/-- Errors returned by the handlers. -/
inductive Err where
  /-- an external collaborator (store, block store) reported a failure -/
  | external
  /-- gorm.ErrRecordNotFound -/
  | recordNotFound
  /-- ctx.Err() of a cancelled context -/
  | ctxDone
  /-- tried to add pin for content we failed to pin previously -/
  | failedPreviously
  /-- failed to update pin pinning state to true -/
  | updatePinningFailed
  /-- content i am being asked to aggregate is not pinned: c -/
  | notPinned (c : Nat)
  /-- unrecognized command op -/
  | unrecognizedOp (op : String)
  /-- failed to compute commP for data: cause -/
  | commpFailed (data : Cid) (cause : String)
  /-- result from commp memoizer was of wrong type: typeName -/
  | commpWrongType (typeName : String)
  /-- a run-time panic on a nil parameter pointer, in the handler or in the
  goroutine it starts -/
  | nilPointer
deriving DecidableEq, Repr

/-- Work started with a go statement; it runs after the spawning handler has
returned (see runGoroutine). -/
inductive Goroutine where
  /-- the closure of addPin (rpc.go 92-100): read the objects of a pin, then
  send the completion message -/
  | resendPinComplete (ctx : Ctx) (pin : Nat) (contid : Nat) (size : Int)
  /-- the call go d.sendPinCompleteMessage(ctx, cont, size, objects) of
  handleRpcAggregateContent (rpc.go 303) -/
  | pinComplete (ctx : Ctx) (cont : Nat) (size : Int) (objects : List Object)
  /-- the closure of handleRpcStartTransfer (rpc.go 317-342) -/
  | startTransfer (ctx : Ctx) (cmd : StartTransfer)
  /-- the closure of handleRpcReqTxStatus (rpc.go 363-381) -/
  | reqTxStatus (req : ReqTxStatus)
deriving DecidableEq, Repr

/-- The commpResult record of rpc.go. -/
structure commpResult where
  CommP : Cid
  Size : Nat
deriving DecidableEq, Repr

/-- A value returned by the commP memoizer (an interface value in Go): a
commpResult, or a value of some other type, named by its type. -/
inductive MemoValue where
  | commp (r : commpResult)
  | other (typeName : String)
deriving DecidableEq, Repr

/-- Modelled from the spec: the chanTrack record, declared outside rpc.go: the
deal a tracked transfer channel belongs to. -/
structure chanTrack where
  dbid : Nat
deriving DecidableEq, Repr

/-- The surface of the external transfer client d.Filc that rpc.go uses.  The
first argument is the number of the external call, so that answers may change
over time; an error is represented by its text. -/
structure FilClient where
  StartDataTransfer : Nat → Address → Cid → Cid → Except String ChannelID :=
    fun _ _ _ _ => .error "unavailable"
  TransferStatus : Nat → ChannelID → Except String (Option ChannelState) :=
    fun _ _ => .error "unavailable"

/-- Modelled from the spec: the Shuttle record, declared outside rpc.go; the
parts of it the pin handlers touch. -/
structure Shuttle where
  /-- the relational store d.DB -/
  DB : Store := {}
  /-- operations handed to d.PinMgr.Add, oldest first -/
  PinMgr : List PinningOperation := []
  /-- messages delivered on d.outgoing, oldest first -/
  outgoing : List Message := []
  /-- blocks written with d.Node.Blockstore.Put, oldest first -/
  blockstore : List Block := []
  /-- goroutines spawned and not yet run, oldest first -/
  detached : List Goroutine := []
  /-- the in-memory map s.trackingChannels, from the string form of a channel
  id to its track -/
  trackingChannels : String → Option chanTrack := fun _ => none
  /-- the external transfer client d.Filc -/
  Filc : FilClient := {}
  /-- the external memoizer d.commpMemo: the outcome of Do for a call number
  and a key -/
  commpMemo : Nat → String → Except String MemoValue := fun _ _ => .error "unavailable"
  /-- number of calls made so far to a collaborator that may fail (store,
  block store) -/
  calls : Nat := 0
  /-- outcome script of those calls: call number n fails when failing n holds -/
  failing : Nat → Bool := fun _ => false

/-! ## External collaborators -/

/-- One more external call has been made. -/
def Shuttle.tick (d : Shuttle) : Shuttle := { d with calls := d.calls + 1 }

/-- Some more external calls have been made. -/
def Shuttle.ticks (d : Shuttle) (k : Nat) : Shuttle := { d with calls := d.calls + k }

/-- Consume the outcome of the next external call: the flag tells whether the
call goes through. -/
def Shuttle.attempt (d : Shuttle) : Bool × Shuttle :=
  (!d.failing d.calls, d.tick)

/-- Conversion to Go int64 (two's complement wrap-around). -/
def wrapInt64 (x : Int) : Int := (x + 2 ^ 63) % 2 ^ 64 - 2 ^ 63

/-- The rows a query with the condition content = contid selects, in table order. -/
def pinsWithContent (pins : List Pin) (contid : Nat) : List Pin :=
  pins.filter (fun p => p.Content == contid)

/-- The row of least primary key (the earliest one among equal keys), which is
what ORDER BY id LIMIT 1 keeps. -/
def leastID : List Pin → Option Pin
  | [] => none
  | p :: ps =>
    match leastID ps with
    | none => some p
    | some q => if q.ID < p.ID then some q else some p

/-- The row a First query with the condition content = contid returns. -/
def pinFor (pins : List Pin) (contid : Nat) : Option Pin :=
  leastID (pinsWithContent pins contid)

/-- The next auto-increment primary key of a table holding the given keys. -/
def nextID (ids : List Nat) : Nat := ids.foldr max 0 + 1

/-- The store after an insert into pins: the row gets the next primary key. -/
def Shuttle.insertPin (d : Shuttle) (pin : Pin) : Shuttle :=
  { d with DB := { d.DB with
      pins := d.DB.pins ++ [{ pin with ID := nextID (d.DB.pins.map (fun p => p.ID)) }] } }

/-- The store after an insert into objects. -/
def Shuttle.insertObject (d : Shuttle) (obj : Object) : Shuttle :=
  { d with DB := { d.DB with
      objects := d.DB.objects ++ [{ obj with ID := nextID (d.DB.objects.map (fun o => o.ID)) }] } }

/-- The store after an insert into obj_refs. -/
def Shuttle.insertObjRef (d : Shuttle) (ref : ObjRef) : Shuttle :=
  { d with DB := { d.DB with
      objRefs := d.DB.objRefs ++ [{ ref with ID := nextID (d.DB.objRefs.map (fun r => r.ID)) }] } }

/-- The store after UPDATE pins SET pinning = v WHERE id = id. -/
def Shuttle.setPinning (d : Shuttle) (id : Nat) (v : Bool) : Shuttle :=
  { d with DB := { d.DB with
      pins := d.DB.pins.map (fun p => if p.ID = id then { p with Pinning := v } else p) } }

/-- The store after UPDATE pins SET active = v WHERE id = id. -/
def Shuttle.setActive (d : Shuttle) (id : Nat) (v : Bool) : Shuttle :=
  { d with DB := { d.DB with
      pins := d.DB.pins.map (fun p => if p.ID = id then { p with Active := v } else p) } }

/-- d.DB.Find(&search, "content = ?", contid) -/
def dbFindPins (d : Shuttle) (contid : Nat) : Except Err (List Pin) × Shuttle :=
  match d.attempt with
  | (false, d1) => (.error .external, d1)
  | (true, d1) => (.ok (pinsWithContent d1.DB.pins contid), d1)

/-- d.DB.First(&p, "content = ?", contid) -/
def dbFirstPin (d : Shuttle) (contid : Nat) : Except Err Pin × Shuttle :=
  match d.attempt with
  | (false, d1) => (.error .external, d1)
  | (true, d1) =>
    match pinFor d1.DB.pins contid with
    | none => (.error .recordNotFound, d1)
    | some p => (.ok p, d1)

/-- d.DB.Model(Pin{}).Where("content = ?", contid).Count(&count) -/
def dbCountPins (d : Shuttle) (contid : Nat) : Except Err Int × Shuttle :=
  match d.attempt with
  | (false, d1) => (.error .external, d1)
  | (true, d1) => (.ok ((pinsWithContent d1.DB.pins contid).length : Int), d1)

/-- d.DB.Create(pin): the row gets the next primary key and is appended; the
key is returned (gorm writes it back into pin.ID). -/
def dbCreatePin (d : Shuttle) (pin : Pin) : Except Err Nat × Shuttle :=
  match d.attempt with
  | (false, d1) => (.error .external, d1)
  | (true, d1) => (.ok (nextID (d1.DB.pins.map (fun p => p.ID))), d1.insertPin pin)

/-- d.DB.Create(obj) -/
def dbCreateObject (d : Shuttle) (obj : Object) : Except Err Nat × Shuttle :=
  match d.attempt with
  | (false, d1) => (.error .external, d1)
  | (true, d1) => (.ok (nextID (d1.DB.objects.map (fun o => o.ID))), d1.insertObject obj)

/-- d.DB.Create(ref) -/
def dbCreateObjRef (d : Shuttle) (ref : ObjRef) : Except Err Nat × Shuttle :=
  match d.attempt with
  | (false, d1) => (.error .external, d1)
  | (true, d1) => (.ok (nextID (d1.DB.objRefs.map (fun r => r.ID))), d1.insertObjRef ref)

/-- d.DB.Model(Pin{}).Where("id = ?", id).UpdateColumn("pinning", v) -/
def dbUpdatePinning (d : Shuttle) (id : Nat) (v : Bool) : Option Err × Shuttle :=
  match d.attempt with
  | (false, d1) => (some .external, d1)
  | (true, d1) => (none, d1.setPinning id v)

/-- d.DB.Model(Pin{}).Where("id = ?", id).UpdateColumns(active: v) -/
def dbUpdateActive (d : Shuttle) (id : Nat) (v : Bool) : Option Err × Shuttle :=
  match d.attempt with
  | (false, d1) => (some .external, d1)
  | (true, d1) => (none, d1.setActive id v)

/-- The number of result rows a left join of one obj_refs row with objects
yields: one per objects row whose key the reference names, and one when it
names none. -/
def joinCount (objects : List Object) (r : ObjRef) : Nat :=
  max 1 (objects.filter (fun o => o.ID == r.Object)).length

/-- One result row of the query of objectsForPin scanned into an Object.  The
query is built from Model(ObjRef) with a raw Joins and no Select, so it selects
the columns of obj_refs only: the scan fills ID from obj_refs.id, finds no cid
or size column, and leaves Cid undefined and Size 0. -/
def scanObjRefRow (r : ObjRef) : Object :=
  { ID := r.ID, Cid := Cid.Undef, Size := 0 }

/-- blocks.NewBlockWithCid(data, c): an external call that may fail. -/
def newBlockWithCid (d : Shuttle) (data : List UInt8) (c : Cid) : Except Err Block × Shuttle :=
  match d.attempt with
  | (false, d1) => (.error .external, d1)
  | (true, d1) => (.ok { data := data, cid := c }, d1)

/-- d.Node.Blockstore.Put(blk) -/
def blockstorePut (d : Shuttle) (blk : Block) : Option Err × Shuttle :=
  match d.attempt with
  | (false, d1) => (some .external, d1)
  | (true, d1) => (none, { d1 with blockstore := d1.blockstore ++ [blk] })

/-- Modelled from the spec: d.PinMgr.Add(op) of package pinner, the hand-over
of a queued unit of work to the pin-execution engine.  The engine is an
external collaborator; the model records the operations handed to it. -/
def pinMgrAdd (d : Shuttle) (op : PinningOperation) : Shuttle :=
  { d with PinMgr := d.PinMgr ++ [op] }

/-- The go statement: record the goroutine for a later run. -/
def spawn (d : Shuttle) (t : Goroutine) : Shuttle :=
  { d with detached := d.detached ++ [t] }

/-! ## The handlers (cmd/estuary-shuttle/rpc.go) -/

/-- Shuttle.sendRpcMessage: deliver on the outbound channel (waiting for room
is not modelled), or fail with ctx.Err() and drop the message when the context
is cancelled. -/
def sendRpcMessage (d : Shuttle) (ctx : Ctx) (msg : Message) : Option Err × Shuttle :=
  if ctx.done then (some .ctxDone, d)
  else (none, { d with outgoing := d.outgoing ++ [msg] })

/-- Shuttle.addPin -/
def addPin (d : Shuttle) (ctx : Ctx) (contid : Nat) (data : Cid) (user : Nat)
    (skipLimiter : Bool) : Option Err × Shuttle :=
  let op : PinningOperation :=
    { Obj := data, ContId := contid, UserId := user, Status := "queued",
      SkipLimiter := skipLimiter }
  match dbFindPins d contid with
  | (.error err, d1) => (some err, d1)
  | (.ok (existing :: _), d1) =>
    if existing.Failed then
      let msg : Message :=
        { Op := "UpdatePinStatus",
          Params := { UpdatePinStatus := some { DBID := contid, Status := "failed" } } }
      (some .failedPreviously, (sendRpcMessage d1 ctx msg).2)
    else if !existing.Pinning && existing.Active then
      (none, spawn d1 (.resendPinComplete ctx existing.ID contid existing.Size))
    else if !existing.Active && !existing.Pinning then
      match dbUpdatePinning d1 existing.ID true with
      | (some _, d2) => (some .updatePinningFailed, d2)
      | (none, d2) => (none, pinMgrAdd d2 op)
    else
      (none, pinMgrAdd d1 op)
  | (.ok [], d1) =>
    let pin : Pin :=
      { Content := contid, Cid := data, UserID := user, Active := false, Pinning := true }
    match dbCreatePin d1 pin with
    | (.error err, d2) => (some err, d2)
    | (.ok _, d2) => (none, pinMgrAdd d2 op)

/-- Shuttle.handleRpcAddPin (the admission lock is held for the whole call). -/
def handleRpcAddPin (d : Shuttle) (ctx : Ctx) (apo : AddPin) : Option Err × Shuttle :=
  addPin d ctx apo.DBID apo.Cid apo.UserId false

/-- The objects Scan yields for the query of objectsForPin (rpc.go 140-142):
one per result row of the obj_refs rows with pin = ?, in table order, each
left-joined with objects, every row scanned from its obj_refs columns alone. -/
def scannedObjects (s : Store) (pin : Nat) : List Object :=
  ((s.objRefs.filter (fun r => r.Pin == pin)).map
    (fun r => List.replicate (joinCount s.objects r) (scanObjRefRow r))).flatten

/-- Following the words of the specification: the Objects linked to a Pin by
its ObjRef rows, in the order of those rows (the object list a completion
notification is to carry). -/
def objectsLinkedTo (s : Store) (pin : Nat) : List Object :=
  ((s.objRefs.filter (fun r => r.Pin == pin)).map
    (fun r => s.objects.filter (fun o => o.ID == r.Object))).flatten

/-- Shuttle.objectsForPin -/
def objectsForPin (d : Shuttle) (pin : Nat) : Except Err (List Object) × Shuttle :=
  match d.attempt with
  | (false, d1) => (.error .external, d1)
  | (true, d1) => (.ok (scannedObjects d1.DB pin), d1)

/-- Shuttle.sendPinCompleteMessage -/
def sendPinCompleteMessage (d : Shuttle) (ctx : Ctx) (cont : Nat) (size : Int)
    (objects : List Object) : Shuttle :=
  let objs : List PinObj := objects.map (fun o => { Cid := o.Cid, Size := o.Size })
  (sendRpcMessage d ctx
    { Op := OP_PinComplete,
      Params := { PinComplete := some { DBID := cont, Size := size, Objects := objs } } }).2

/-- Shuttle.trackTransfer (the tracker lock is held for the whole call). -/
def trackTransfer (s : Shuttle) (chanid : ChannelID) (dealdbid : Nat) : Shuttle :=
  { s with trackingChannels := fun k =>
      if k = chanid.String then some { dbid := dealdbid } else s.trackingChannels k }

/-- Shuttle.sendTransferStatusUpdate (the log line is not modelled). -/
def sendTransferStatusUpdate (d : Shuttle) (ctx : Ctx) (st : TransferStatus) : Shuttle :=
  (sendRpcMessage d ctx { Op := OP_TransferStatus, Params := { TransferStatus := some st } }).2

/-- One spawned goroutine run to completion. -/
def runGoroutine (d : Shuttle) : Goroutine → Shuttle
  | .resendPinComplete ctx pin contid size =>
    match objectsForPin d pin with
    | (.error _, d1) => d1
    | (.ok objects, d1) => sendPinCompleteMessage d1 ctx contid size objects
  | .pinComplete ctx cont size objects => sendPinCompleteMessage d ctx cont size objects
  | .startTransfer ctx cmd =>
    match d.Filc.StartDataTransfer d.calls cmd.Miner cmd.PropCid cmd.DataCid with
    | .error err =>
      sendTransferStatusUpdate d.tick ctx
        { DealDBID := cmd.DealDBID, Failed := true,
          Message := "failed to start data transfer: " ++ err }
    | .ok chanid =>
      (sendRpcMessage (trackTransfer d.tick chanid cmd.DealDBID) ctx
        { Op := OP_TransferStarted,
          Params := { TransferStarted := some { DealDBID := cmd.DealDBID,
                                                Chanid := chanid.String } } }).2
  | .reqTxStatus req =>
    match d.Filc.TransferStatus d.calls req.ChanID with
    | .error _ => d.tick
    | .ok st =>
      sendTransferStatusUpdate d.tick Ctx.TODO
        { Chanid := req.ChanID.String, DealDBID := req.DealDBID, State := st }

/-- The loop body of handleRpcTakeContent over the remaining contents. -/
def takeContentLoop (ctx : Ctx) : List ContentFetch → Shuttle → Option Err × Shuttle
  | [], d => (none, d)
  | c :: cs, d =>
    match dbCountPins d c.ID with
    | (.error err, d1) => (some err, d1)
    | (.ok count, d1) =>
      if count > 0 then takeContentLoop ctx cs d1
      else
        match addPin d1 ctx c.ID c.Cid c.UserID true with
        | (some err, d2) => (some err, d2)
        | (none, d2) => takeContentLoop ctx cs d2

/-- Shuttle.handleRpcTakeContent (the admission lock is held for the whole call). -/
def handleRpcTakeContent (d : Shuttle) (ctx : Ctx) (cmd : TakeContent) : Option Err × Shuttle :=
  takeContentLoop ctx cmd.Contents d

/-- The constituent loop of handleRpcAggregateContent (rpc.go 245-258): the
running total is an int64. -/
def aggregateLoop : List Nat → Int → Shuttle → Except Err Int × Shuttle
  | [], totalSize, d => (.ok totalSize, d)
  | c :: cs, totalSize, d =>
    match dbFirstPin d c with
    | (.error err, d1) => (.error err, d1)
    | (.ok aggr, d1) =>
      if !aggr.Active || aggr.Failed then (.error (.notPinned c), d1)
      else aggregateLoop cs (wrapInt64 (totalSize + aggr.Size)) d1

/-- Shuttle.handleRpcAggregateContent (the admission lock is held for the whole call). -/
def handleRpcAggregateContent (d : Shuttle) (ctx : Ctx) (cmd : AggregateContent) :
    Option Err × Shuttle :=
  match dbFirstPin d cmd.DBID with
  | (.ok _, d1) => (none, d1)
  | (.error .recordNotFound, d1) =>
    match aggregateLoop cmd.Contents (wrapInt64 (cmd.ObjData.length : Int)) d1 with
    | (.error err, d2) => (some err, d2)
    | (.ok totalSize, d2) =>
      let pin : Pin :=
        { Content := cmd.DBID, Cid := cmd.Root, UserID := cmd.UserID, Size := totalSize,
          Active := false, Pinning := true, Aggregate := true }
      match dbCreatePin d2 pin with
      | (.error err, d3) => (some err, d3)
      | (.ok pinID, d3) =>
        match newBlockWithCid d3 cmd.ObjData cmd.Root with
        | (.error err, d4) => (some err, d4)
        | (.ok blk, d4) =>
          match blockstorePut d4 blk with
          | (some err, d5) => (some err, d5)
          | (none, d5) =>
            match dbUpdateActive d5 pinID true with
            | (some err, d6) => (some err, d6)
            | (none, d6) =>
              match dbCreateObject d6 { Cid := blk.cid, Size := (blk.data.length : Int) } with
              | (.error err, d7) => (some err, d7)
              | (.ok objID, d7) =>
                match dbCreateObjRef d7 { Pin := pinID, Object := objID } with
                | (.error err, d8) => (some err, d8)
                | (.ok _, d8) => (none, spawn d8 (.pinComplete ctx cmd.DBID totalSize []))
  | (.error err, d1) => (some err, d1)

/-- Shuttle.handleRpcComputeCommP (the tracing span is not modelled). -/
def handleRpcComputeCommP (d : Shuttle) (ctx : Ctx) (cmd : ComputeCommP) : Option Err × Shuttle :=
  match d.commpMemo d.calls cmd.Data.str with
  | .error err => (some (.commpFailed cmd.Data err), d.tick)
  | .ok (.commp commpRes) =>
    sendRpcMessage d.tick ctx
      { Op := OP_CommPComplete,
        Params := { CommPComplete := some { Data := cmd.Data, CommP := commpRes.CommP,
                                            Size := commpRes.Size } } }
  | .ok (.other typeName) => (some (.commpWrongType typeName), d.tick)

/-- Shuttle.handleRpcStartTransfer: the work is done by the goroutine. -/
def handleRpcStartTransfer (d : Shuttle) (ctx : Ctx) (cmd : StartTransfer) :
    Option Err × Shuttle :=
  (none, spawn d (.startTransfer ctx cmd))

/-- Shuttle.handleRpcReqTxStatus: the work is done by the goroutine, under a
context of its own. -/
def handleRpcReqTxStatus (d : Shuttle) (_ctx : Ctx) (req : ReqTxStatus) : Option Err × Shuttle :=
  (none, spawn d (.reqTxStatus req))

/-- Shuttle.handleRpcCmd.  The parameter variants are pointers: a nil one for
the tag of the command makes the handler, or the goroutine it starts, panic. -/
def handleRpcCmd (d : Shuttle) (cmd : Command) : Option Err × Shuttle :=
  if cmd.Op = CMD_AddPin then
    match cmd.Params.AddPin with
    | some apo => handleRpcAddPin d Ctx.TODO apo
    | none => (some .nilPointer, d)
  else if cmd.Op = CMD_ComputeCommP then
    match cmd.Params.ComputeCommP with
    | some c => handleRpcComputeCommP d Ctx.TODO c
    | none => (some .nilPointer, d)
  else if cmd.Op = CMD_TakeContent then
    match cmd.Params.TakeContent with
    | some c => handleRpcTakeContent d Ctx.TODO c
    | none => (some .nilPointer, d)
  else if cmd.Op = CMD_AggregateContent then
    match cmd.Params.AggregateContent with
    | some c => handleRpcAggregateContent d Ctx.TODO c
    | none => (some .nilPointer, d)
  else if cmd.Op = CMD_StartTransfer then
    match cmd.Params.StartTransfer with
    | some c => handleRpcStartTransfer d Ctx.TODO c
    | none => (some .nilPointer, d)
  else if cmd.Op = CMD_ReqTxStatus then
    match cmd.Params.ReqTxStatus with
    | some c => handleRpcReqTxStatus d Ctx.TODO c
    | none => (some .nilPointer, d)
  else
    (some (.unrecognizedOp cmd.Op), d)

/-- The same AddPin command handled n times in a row (the admission lock
serialises the calls); the errors returned, oldest first, and the final state. -/
def repeatAddPin (ctx : Ctx) (apo : AddPin) : Nat → Shuttle → List (Option Err) × Shuttle
  | 0, d => ([], d)
  | n + 1, d =>
    ((handleRpcAddPin d ctx apo).1 :: (repeatAddPin ctx apo n (handleRpcAddPin d ctx apo).2).1,
      (repeatAddPin ctx apo n (handleRpcAddPin d ctx apo).2).2)

/-- The commands that create or change Pin rows, each handled under the
admission lock. -/
inductive PinCommand where
  | addPin (apo : AddPin)
  | takeContent (cmd : TakeContent)
  | aggregateContent (cmd : AggregateContent)
deriving DecidableEq, Repr

/-- The dispatch of handleRpcCmd for the three pin commands. -/
def handlePinCommand (d : Shuttle) (ctx : Ctx) : PinCommand → Option Err × Shuttle
  | .addPin apo => handleRpcAddPin d ctx apo
  | .takeContent cmd => handleRpcTakeContent d ctx cmd
  | .aggregateContent cmd => handleRpcAggregateContent d ctx cmd

/-- A sequence of pin commands handled one after the other, whatever each
returns. -/
def handlePinCommands (ctx : Ctx) : List PinCommand → Shuttle → Shuttle
  | [], d => d
  | c :: cs, d => handlePinCommands ctx cs (handlePinCommand d ctx c).2

/-! ## Properties -/

/-- No call to an external collaborator reports a failure. -/
def Shuttle.calm (d : Shuttle) : Prop := ∀ n, d.failing n = false

/-- The pin-execution operation addPin builds (rpc.go 125-132). -/
def queuedOp (contid : Nat) (data : Cid) (user : Nat) (skipLimiter : Bool) : PinningOperation :=
  { Obj := data, ContId := contid, UserId := user, Status := "queued",
    SkipLimiter := skipLimiter }

/-! ### Predicates and example states -/

/-- The Size the constituent loop reads for a content id. -/
def constituentSize (pins : List Pin) (c : Nat) : Int :=
  match pinFor pins c with
  | some p => p.Size
  | none => 0

/-- The Pin row addPin creates (rpc.go 111-118), before the store keys it. -/
def freshPin (contid : Nat) (data : Cid) (user : Nat) : Pin :=
  { Content := contid, Cid := data, UserID := user, Active := false, Pinning := true }

/-- A store with one Pin in flight for content id 7. -/
def pinningShuttle : Shuttle :=
  { DB := { pins := [{ ID := 1, Content := 7, Cid := ⟨"bafy7"⟩, UserID := 3, Pinning := true }] } }

/-- A store with one completed Pin for content id 7 made of two objects. -/
def activeShuttle : Shuttle :=
  { DB := { pins := [{ ID := 1, Content := 7, Cid := ⟨"bafy7"⟩, UserID := 3, Size := 30,
                       Active := true }],
            objects := [{ ID := 1, Cid := ⟨"obj1"⟩, Size := 10 },
                        { ID := 2, Cid := ⟨"obj2"⟩, Size := 20 }],
            objRefs := [{ ID := 1, Pin := 1, Object := 1 }, { ID := 2, Pin := 1, Object := 2 }] } }

/-- A store with one failed Pin for content id 7. -/
def failedShuttle : Shuttle :=
  { DB := { pins := [{ ID := 1, Content := 7, Cid := ⟨"bafy7"⟩, UserID := 3, Failed := true }] } }

/-- A store whose only Pin, for content id 1, is still in flight. -/
def inflightShuttle : Shuttle :=
  { DB := { pins := [{ ID := 1, Content := 1, Cid := ⟨"bafy1"⟩, UserID := 3, Size := 100,
                       Pinning := true }] } }

/-- A store with two completed Pins of sizes 100 and 250. -/
def twoPinsShuttle : Shuttle :=
  { DB := { pins := [{ ID := 1, Content := 1, Cid := ⟨"bafy1"⟩, UserID := 3, Size := 100,
                       Active := true },
                     { ID := 2, Content := 2, Cid := ⟨"bafy2"⟩, UserID := 3, Size := 250,
                       Active := true }] } }

/-- A store with two completed Pins whose sizes are 2^62 each. -/
def hugePinsShuttle : Shuttle :=
  { DB := { pins := [{ ID := 1, Content := 1, Cid := ⟨"bafy1"⟩, UserID := 3,
                       Size := 4611686018427387904, Active := true },
                     { ID := 2, Content := 2, Cid := ⟨"bafy2"⟩, UserID := 3,
                       Size := 4611686018427387904, Active := true }] } }

/-- At most one Pin row per content id. -/
def UniqueContent (pins : List Pin) : Prop :=
  ∀ c, (pinsWithContent pins c).length ≤ 1

/-- The relation between a Pin row created by TakeContent and the content
entry it was created for. -/
def AdmittedFor (p : Pin) (c : ContentFetch) : Prop :=
  p.Content = c.ID ∧ p.Cid = c.Cid ∧ p.UserID = c.UserID ∧ p.Size = 0 ∧
    p.Pinning = true ∧ p.Active = false ∧ p.Failed = false ∧ p.Aggregate = false

/-- A TakeContent command naming three ids without a Pin in twoPinsShuttle
(3, 4, 5; 3 is listed twice) and the two ids that have one (1, 2). -/
def mixedTakeContent : TakeContent :=
  { Contents := [⟨3, ⟨"bafy3"⟩, 7⟩, ⟨1, ⟨"bafy1"⟩, 3⟩, ⟨4, ⟨"bafy4"⟩, 7⟩, ⟨2, ⟨"bafy2"⟩, 3⟩,
                 ⟨5, ⟨"bafy5"⟩, 7⟩, ⟨3, ⟨"bafy3"⟩, 7⟩] }

/-- No Pin row is Active and Pinning at the same time. -/
def NoActivePinning (pins : List Pin) : Prop :=
  ∀ p ∈ pins, ¬ (p.Active = true ∧ p.Pinning = true)

/-- The primary keys of the pins table are pairwise distinct. -/
def KeysDistinct (pins : List Pin) : Prop :=
  (pins.map (fun p => p.ID)).Nodup

/-- The operation tags handleRpcCmd recognises. -/
def knownOps : List String :=
  [CMD_AddPin, CMD_ComputeCommP, CMD_TakeContent, CMD_AggregateContent, CMD_StartTransfer,
   CMD_ReqTxStatus]

/-- Every Failed Pin row has Pinning = false. -/
def FailedNotPinning (pins : List Pin) : Prop :=
  ∀ p ∈ pins, p.Failed = true → p.Pinning = false

/-- A channel id used in the examples. -/
def exampleChannel : ChannelID := { Initiator := "peerA", Responder := "peerB", ID := 42 }

/-- A shuttle whose transfer client starts every transfer on exampleChannel and
reports status 6 for every channel, and whose tracker maps exampleChannel to
deal 5. -/
def transferShuttle : Shuttle :=
  { Filc := { StartDataTransfer := fun _ _ _ _ => .ok exampleChannel,
              TransferStatus := fun _ _ => .ok (some { Status := 6, Message := "ongoing" }) },
    trackingChannels := fun k => if k = "peerA-peerB-42" then some { dbid := 5 } else none }

/-- A shuttle whose transfer client refuses every transfer. -/
def refusingShuttle : Shuttle :=
  { Filc := { StartDataTransfer := fun _ _ _ _ => .error "no route to miner" },
    trackingChannels := fun k => if k = "peerA-peerB-42" then some { dbid := 5 } else none }

/-- A shuttle as transferShuttle, with an empty tracker. -/
def untrackedShuttle : Shuttle :=
  { Filc := { StartDataTransfer := fun _ _ _ _ => .ok exampleChannel,
              TransferStatus := fun _ _ => .ok (some { Status := 6, Message := "ongoing" }) } }

/-- A shuttle whose memoizer knows the piece commitment of bafy7. -/
def commpShuttle : Shuttle :=
  { commpMemo := fun _ k =>
      if k = "bafy7" then .ok (.commp { CommP := ⟨"baga7"⟩, Size := 127 })
      else .error "not found" }

/-- A store whose only Pin, for content id 7, is neither Active, Pinning nor Failed. -/
def stalledShuttle : Shuttle :=
  { DB := { pins := [{ ID := 1, Content := 6, Cid := ⟨"bafy6"⟩, UserID := 3, Active := true },
                     { ID := 2, Content := 7, Cid := ⟨"bafy7"⟩, UserID := 3 }] } }

/-- The store of twoPinsShuttle with a block store whose Put fails: the sixth
external call (number 5) of an aggregation over two constituents. -/
def putFailsShuttle : Shuttle :=
  { DB := twoPinsShuttle.DB, failing := fun n => n == 5 }

/-! ### Lemmas on the store primitives -/

@[simp] theorem tick_DB (d : Shuttle) : d.tick.DB = d.DB := rfl
@[simp] theorem tick_PinMgr (d : Shuttle) : d.tick.PinMgr = d.PinMgr := rfl
@[simp] theorem tick_outgoing (d : Shuttle) : d.tick.outgoing = d.outgoing := rfl
@[simp] theorem tick_blockstore (d : Shuttle) : d.tick.blockstore = d.blockstore := rfl
@[simp] theorem tick_detached (d : Shuttle) : d.tick.detached = d.detached := rfl
@[simp] theorem tick_failing (d : Shuttle) : d.tick.failing = d.failing := rfl
@[simp] theorem calm_tick (d : Shuttle) : d.tick.calm ↔ d.calm := Iff.rfl
@[simp] theorem calm_pinMgrAdd (d : Shuttle) (op : PinningOperation) :
    (pinMgrAdd d op).calm ↔ d.calm := Iff.rfl
@[simp] theorem calm_spawn (d : Shuttle) (t : Goroutine) : (spawn d t).calm ↔ d.calm := Iff.rfl
@[simp] theorem calm_insertPin (d : Shuttle) (p : Pin) : (d.insertPin p).calm ↔ d.calm := Iff.rfl
@[simp] theorem calm_insertObject (d : Shuttle) (o : Object) :
    (d.insertObject o).calm ↔ d.calm := Iff.rfl
@[simp] theorem calm_insertObjRef (d : Shuttle) (r : ObjRef) :
    (d.insertObjRef r).calm ↔ d.calm := Iff.rfl
@[simp] theorem calm_setPinning (d : Shuttle) (id : Nat) (v : Bool) :
    (d.setPinning id v).calm ↔ d.calm := Iff.rfl
@[simp] theorem calm_setActive (d : Shuttle) (id : Nat) (v : Bool) :
    (d.setActive id v).calm ↔ d.calm := Iff.rfl

theorem attempt_of_calm {d : Shuttle} (h : d.calm) : d.attempt = (true, d.tick) := by
  simp [Shuttle.attempt, h d.calls]

theorem dbFindPins_of_calm {d : Shuttle} (h : d.calm) (c : Nat) :
    dbFindPins d c = (.ok (pinsWithContent d.DB.pins c), d.tick) := by
  simp [dbFindPins, attempt_of_calm h]

theorem dbCountPins_of_calm {d : Shuttle} (h : d.calm) (c : Nat) :
    dbCountPins d c = (.ok ((pinsWithContent d.DB.pins c).length : Int), d.tick) := by
  simp [dbCountPins, attempt_of_calm h]

theorem dbCreatePin_of_calm {d : Shuttle} (h : d.calm) (pin : Pin) :
    dbCreatePin d pin = (.ok (nextID (d.DB.pins.map (fun p => p.ID))), d.tick.insertPin pin) := by
  simp [dbCreatePin, attempt_of_calm h]

@[simp] theorem ticks_DB (d : Shuttle) (k : Nat) : (d.ticks k).DB = d.DB := rfl
@[simp] theorem ticks_PinMgr (d : Shuttle) (k : Nat) : (d.ticks k).PinMgr = d.PinMgr := rfl
@[simp] theorem ticks_outgoing (d : Shuttle) (k : Nat) : (d.ticks k).outgoing = d.outgoing := rfl
@[simp] theorem ticks_blockstore (d : Shuttle) (k : Nat) :
    (d.ticks k).blockstore = d.blockstore := rfl
@[simp] theorem ticks_detached (d : Shuttle) (k : Nat) : (d.ticks k).detached = d.detached := rfl
@[simp] theorem calm_ticks (d : Shuttle) (k : Nat) : (d.ticks k).calm ↔ d.calm := Iff.rfl

theorem ticks_zero (d : Shuttle) : d.ticks 0 = d := rfl

theorem tick_ticks (d : Shuttle) (k : Nat) : d.tick.ticks k = d.ticks (k + 1) := by
  simp only [Shuttle.tick, Shuttle.ticks]
  congr 1
  omega

theorem wrapInt64_add_left (a b : Int) : wrapInt64 (wrapInt64 a + b) = wrapInt64 (a + b) := by
  simp only [wrapInt64]
  omega

theorem wrapInt64_of_range (x : Int) (h1 : -(2 ^ 63) ≤ x) (h2 : x < 2 ^ 63) :
    wrapInt64 x = x := by
  simp only [wrapInt64]
  omega

theorem leastID_eq_none (l : List Pin) : leastID l = none ↔ l = [] := by
  cases l with
  | nil => simp [leastID]
  | cons p ps =>
    simp only [leastID]
    cases leastID ps with
    | none => simp
    | some q => by_cases h : q.ID < p.ID <;> simp [h]

theorem pinFor_eq_none (pins : List Pin) (c : Nat) :
    pinFor pins c = none ↔ pinsWithContent pins c = [] :=
  leastID_eq_none _

theorem dbFirstPin_of_failing {d : Shuttle} (h : d.failing d.calls = true) (c : Nat) :
    dbFirstPin d c = (.error .external, d.tick) := by
  simp [dbFirstPin, Shuttle.attempt, h]

theorem dbFirstPin_of_none {d : Shuttle} (h : d.failing d.calls = false) (c : Nat)
    (hn : pinFor d.DB.pins c = none) : dbFirstPin d c = (.error .recordNotFound, d.tick) := by
  simp [dbFirstPin, Shuttle.attempt, h, hn]

theorem dbFirstPin_of_some {d : Shuttle} (h : d.failing d.calls = false) (c : Nat) (p : Pin)
    (hp : pinFor d.DB.pins c = some p) : dbFirstPin d c = (.ok p, d.tick) := by
  simp [dbFirstPin, Shuttle.attempt, h, hp]

/-- The constituent loop stops with an error, having changed nothing, as soon
as a constituent has no Pin or a Pin that is not Active or is Failed. -/
theorem aggregateLoop_error (cs : List Nat) :
    ∀ (t : Int) (d : Shuttle),
      (∃ c ∈ cs, ∀ p, pinFor d.DB.pins c = some p → p.Active = false ∨ p.Failed = true) →
      ∃ e k, aggregateLoop cs t d = (.error e, d.ticks k) ∧
        (e = .external ∨ e = .recordNotFound ∨ ∃ c ∈ cs, e = .notPinned c) := by
  induction cs with
  | nil => intro t d h; simp at h
  | cons c cs ih =>
    intro t d h
    by_cases hf : d.failing d.calls = true
    · exact ⟨.external, 1, by simp [aggregateLoop, dbFirstPin_of_failing hf]; rfl, Or.inl rfl⟩
    · have hf0 : d.failing d.calls = false := by simpa using hf
      cases hp : pinFor d.DB.pins c with
      | none =>
        exact ⟨.recordNotFound, 1,
          by simp [aggregateLoop, dbFirstPin_of_none hf0 c hp]; rfl, Or.inr (Or.inl rfl)⟩
      | some p =>
        by_cases hbad : (!p.Active || p.Failed) = true
        · exact ⟨.notPinned c, 1,
            by simp only [aggregateLoop, dbFirstPin_of_some hf0 c p hp, hbad, if_true]; rfl,
            Or.inr (Or.inr ⟨c, List.mem_cons_self _ _, rfl⟩)⟩
        · have hrest : ∃ c1 ∈ cs, ∀ p, pinFor d.tick.DB.pins c1 = some p →
              p.Active = false ∨ p.Failed = true := by
            obtain ⟨c1, hc1, hq⟩ := h
            rcases List.mem_cons.1 hc1 with e | hmem
            · subst e
              have := hq p hp
              simp at hbad
              rcases this with h1 | h1
              · simp [h1] at hbad
              · simp [h1] at hbad
            · exact ⟨c1, hmem, hq⟩
          obtain ⟨e, k, he, hcls⟩ := ih (wrapInt64 (t + p.Size)) d.tick hrest
          refine ⟨e, k + 1, ?_, ?_⟩
          · simp only [aggregateLoop, dbFirstPin_of_some hf0 c p hp, hbad]
            simpa [tick_ticks] using he
          · rcases hcls with h1 | h1 | ⟨c2, hc2, h2⟩
            · exact Or.inl h1
            · exact Or.inr (Or.inl h1)
            · exact Or.inr (Or.inr ⟨c2, List.mem_cons_of_mem _ hc2, h2⟩)

/-- The constituent loop, when every constituent has an Active Pin that is not
Failed and no store call fails: the total is the start value plus the Sizes,
wrapped to int64, and nothing has changed. -/
theorem aggregateLoop_ok (cs : List Nat) :
    ∀ (t : Int) (d : Shuttle), d.calm →
      (∀ c ∈ cs, ∃ p, pinFor d.DB.pins c = some p ∧ p.Active = true ∧ p.Failed = false) →
      aggregateLoop cs (wrapInt64 t) d =
        (.ok (wrapInt64 (t + (cs.map (constituentSize d.DB.pins)).sum)), d.ticks cs.length) := by
  induction cs with
  | nil => intro t d _ _; simp [aggregateLoop, ticks_zero]
  | cons c cs ih =>
    intro t d hc hall
    obtain ⟨p, hp, ha, hf⟩ := hall c (List.mem_cons_self _ _)
    have hrest : ∀ c1 ∈ cs, ∃ p, pinFor d.tick.DB.pins c1 = some p ∧ p.Active = true ∧
        p.Failed = false := fun c1 h1 => hall c1 (List.mem_cons_of_mem _ h1)
    have hstep := ih (t + p.Size) d.tick hc hrest
    simp only [aggregateLoop, dbFirstPin_of_some (hc d.calls) c p hp, ha, hf]
    simp only [wrapInt64_add_left]
    simp only [Bool.not_true, Bool.or_self, Bool.false_eq_true, if_false]
    rw [hstep]
    simp [constituentSize, hp, tick_ticks, add_assoc]

/-- With no Pin for the content id, addPin inserts the fresh Pin and queues
the operation. -/
theorem addPin_of_absent {d : Shuttle} (h : d.calm) (ctx : Ctx) (c : Nat) (data : Cid)
    (user : Nat) (skip : Bool) (hnone : pinsWithContent d.DB.pins c = []) :
    addPin d ctx c data user skip =
      (none, pinMgrAdd (d.tick.tick.insertPin (freshPin c data user))
        (queuedOp c data user skip)) := by
  have h1 : d.tick.calm := h
  simp [addPin, dbFindPins_of_calm h, hnone, dbCreatePin_of_calm h1, queuedOp, freshPin]

/-- With a Pin in flight for the content id, addPin only queues the operation. -/
theorem addPin_of_pinning {d : Shuttle} (h : d.calm) (ctx : Ctx) (c : Nat) (data : Cid)
    (user : Nat) (skip : Bool) (p : Pin) (rest : List Pin)
    (hs : pinsWithContent d.DB.pins c = p :: rest) (hp : p.Pinning = true)
    (hf : p.Failed = false) :
    addPin d ctx c data user skip = (none, pinMgrAdd d.tick (queuedOp c data user skip)) := by
  simp [addPin, dbFindPins_of_calm h, hs, hp, hf, queuedOp]

theorem le_foldr_max (ids : List Nat) (n : Nat) (h : n ∈ ids) : n ≤ ids.foldr max 0 := by
  induction ids with
  | nil => simp at h
  | cons a as ih =>
    simp only [List.foldr_cons]
    rcases List.mem_cons.1 h with h | h
    · subst h; exact Nat.le_max_left _ _
    · exact Nat.le_trans (ih h) (Nat.le_max_right _ _)

/-- The next auto-increment key is larger than every key in use. -/
theorem lt_nextID (ids : List Nat) (n : Nat) (h : n ∈ ids) : n < nextID ids := by
  have := le_foldr_max ids n h
  simp only [nextID]
  omega

/-- Repeating AddPin while the Pin is in flight changes no row and queues one
operation per call. -/
theorem repeatAddPin_of_pinning (ctx : Ctx) (apo : AddPin) (n : Nat) :
    ∀ (d : Shuttle) (p : Pin) (rest : List Pin), d.calm →
      pinsWithContent d.DB.pins apo.DBID = p :: rest → p.Pinning = true → p.Failed = false →
      (repeatAddPin ctx apo n d).1 = List.replicate n none ∧
      (repeatAddPin ctx apo n d).2.DB = d.DB ∧
      (repeatAddPin ctx apo n d).2.PinMgr =
        d.PinMgr ++ List.replicate n (queuedOp apo.DBID apo.Cid apo.UserId false) := by
  induction n with
  | zero => intro d p rest _ _ _ _; simp [repeatAddPin]
  | succ n ih =>
    intro d p rest hc hs hp hf
    have e := addPin_of_pinning hc ctx apo.DBID apo.Cid apo.UserId false p rest hs hp hf
    have ih1 := ih (pinMgrAdd d.tick (queuedOp apo.DBID apo.Cid apo.UserId false)) p rest
      hc hs hp hf
    simp only [repeatAddPin, handleRpcAddPin, e]
    refine ⟨?_, ?_, ?_⟩
    · simp [ih1.1, List.replicate_succ]
    · simpa [pinMgrAdd] using ih1.2.1
    · rw [ih1.2.2]
      simp [pinMgrAdd, List.replicate_succ]

/-- C1 (as stated) fails: the same AddPin command handled twice from the empty
store hands two operations to the pin manager, not at most one. -/
theorem repeatAddPin_enqueues_twice :
    pinsWithContent ({} : Shuttle).DB.pins 7 = [] ∧
    ¬ ((repeatAddPin Ctx.TODO ⟨7, 3, ⟨"bafy7"⟩⟩ 2 {}).2.PinMgr.length ≤ 1) := by
  refine ⟨rfl, ?_⟩
  simp [repeatAddPin, handleRpcAddPin, addPin, dbFindPins, dbCreatePin, Shuttle.attempt,
    Shuttle.tick, Shuttle.insertPin, pinsWithContent, pinMgrAdd]

/-- C1 (as amended): from a store with no Pin for the content id, handling the
same AddPin command N >= 1 times in a row (store calls succeeding) succeeds
every time, appends one Pin row for the content id and nothing else, so that
exactly one row has that content id, and hands exactly N operations to the
pin manager, one per call. -/
theorem repeatAddPin_one_row (d : Shuttle) (ctx : Ctx) (apo : AddPin) (N : Nat)
    (hN : 1 ≤ N) (hcalm : d.calm) (hnone : pinsWithContent d.DB.pins apo.DBID = []) :
    (repeatAddPin ctx apo N d).1 = List.replicate N none ∧
    (∃ id, (repeatAddPin ctx apo N d).2.DB.pins = d.DB.pins ++
        [{ ID := id, Content := apo.DBID, Cid := apo.Cid, UserID := apo.UserId, Size := 0,
           Active := false, Failed := false, Pinning := true, Aggregate := false }]) ∧
    (pinsWithContent (repeatAddPin ctx apo N d).2.DB.pins apo.DBID).length = 1 ∧
    (repeatAddPin ctx apo N d).2.DB.objects = d.DB.objects ∧
    (repeatAddPin ctx apo N d).2.DB.objRefs = d.DB.objRefs ∧
    (repeatAddPin ctx apo N d).2.PinMgr =
      d.PinMgr ++ List.replicate N (queuedOp apo.DBID apo.Cid apo.UserId false) := by
  obtain ⟨n, rfl⟩ : ∃ n, N = n + 1 := ⟨N - 1, by omega⟩
  have e := addPin_of_absent hcalm ctx apo.DBID apo.Cid apo.UserId false hnone
  have hs : pinsWithContent
      (pinMgrAdd (d.tick.tick.insertPin (freshPin apo.DBID apo.Cid apo.UserId))
        (queuedOp apo.DBID apo.Cid apo.UserId false)).DB.pins apo.DBID =
      { freshPin apo.DBID apo.Cid apo.UserId with
        ID := nextID (d.DB.pins.map (fun p => p.ID)) } :: [] := by
    simp [pinMgrAdd, Shuttle.insertPin, pinsWithContent, freshPin] at hnone ⊢
    simpa using hnone
  have ih := repeatAddPin_of_pinning ctx apo n _ _ _ (by simpa using hcalm) hs rfl rfl
  simp only [repeatAddPin, handleRpcAddPin, e]
  refine ⟨?_, ⟨nextID (d.DB.pins.map (fun p => p.ID)), ?_⟩, ?_, ?_, ?_, ?_⟩
  · simp [ih.1, List.replicate_succ]
  · rw [ih.2.1]; simp [pinMgrAdd, Shuttle.insertPin, freshPin]
  · rw [ih.2.1, hs]; rfl
  · rw [ih.2.1]; simp [pinMgrAdd, Shuttle.insertPin]
  · rw [ih.2.1]; simp [pinMgrAdd, Shuttle.insertPin]
  · rw [ih.2.2]; simp [pinMgrAdd, Shuttle.insertPin, List.replicate_succ]

theorem repeatAddPin_one_row_witness :
    (repeatAddPin Ctx.TODO ⟨8, 4, ⟨"bafy8"⟩⟩ 3 pinningShuttle).1 = List.replicate 3 none ∧
    (∃ id, (repeatAddPin Ctx.TODO ⟨8, 4, ⟨"bafy8"⟩⟩ 3 pinningShuttle).2.DB.pins =
      pinningShuttle.DB.pins ++
        [{ ID := id, Content := 8, Cid := ⟨"bafy8"⟩, UserID := 4, Size := 0,
           Active := false, Failed := false, Pinning := true, Aggregate := false }]) ∧
    (pinsWithContent (repeatAddPin Ctx.TODO ⟨8, 4, ⟨"bafy8"⟩⟩ 3 pinningShuttle).2.DB.pins
      8).length = 1 ∧
    (repeatAddPin Ctx.TODO ⟨8, 4, ⟨"bafy8"⟩⟩ 3 pinningShuttle).2.DB.objects =
      pinningShuttle.DB.objects ∧
    (repeatAddPin Ctx.TODO ⟨8, 4, ⟨"bafy8"⟩⟩ 3 pinningShuttle).2.DB.objRefs =
      pinningShuttle.DB.objRefs ∧
    (repeatAddPin Ctx.TODO ⟨8, 4, ⟨"bafy8"⟩⟩ 3 pinningShuttle).2.PinMgr =
      pinningShuttle.PinMgr ++ List.replicate 3 (queuedOp 8 ⟨"bafy8"⟩ 4 false) :=
  repeatAddPin_one_row pinningShuttle Ctx.TODO ⟨8, 4, ⟨"bafy8"⟩⟩ 3 (by decide) (fun _ => rfl)
    (by decide)

/-- C2 (as stated) fails: with a Pin in flight for content id 7, addPin hands
one more operation to the pin manager instead of being a no-op. -/
theorem addPin_pinning_not_noop :
    pinningShuttle.calm ∧
    (pinsWithContent pinningShuttle.DB.pins 7).head? =
      some { ID := 1, Content := 7, Cid := ⟨"bafy7"⟩, UserID := 3, Pinning := true } ∧
    (addPin pinningShuttle Ctx.TODO 7 ⟨"bafy7"⟩ 3 false).2.PinMgr ≠ pinningShuttle.PinMgr := by
  refine ⟨fun _ => rfl, by decide, ?_⟩
  simp [addPin, dbFindPins, Shuttle.attempt, Shuttle.tick, pinsWithContent, pinningShuttle,
    pinMgrAdd]

/-- C2 (as amended): when the first Pin found for the content id is in flight
(Pinning, not Failed), addPin returns success, changes no row, emits no message
and spawns nothing, and hands exactly one more operation to the pin manager. -/
theorem addPin_pinning_requeues (d : Shuttle) (ctx : Ctx) (c : Nat) (data : Cid) (user : Nat)
    (skip : Bool) (p : Pin) (hcalm : d.calm)
    (hfound : (pinsWithContent d.DB.pins c).head? = some p)
    (hp : p.Pinning = true) (hf : p.Failed = false) :
    ∃ d1, addPin d ctx c data user skip = (none, d1) ∧
      d1.DB = d.DB ∧ d1.outgoing = d.outgoing ∧ d1.detached = d.detached ∧
      d1.blockstore = d.blockstore ∧
      d1.PinMgr = d.PinMgr ++ [queuedOp c data user skip] := by
  have hc : ∀ n, d.failing n = false := hcalm
  cases hs : pinsWithContent d.DB.pins c with
  | nil => simp [hs] at hfound
  | cons e rest =>
    simp [hs] at hfound
    subst hfound
    simp [addPin, dbFindPins, Shuttle.attempt, Shuttle.tick, hc, hs, hp, hf, pinMgrAdd, queuedOp]

theorem addPin_pinning_requeues_witness :
    ∃ d1, addPin pinningShuttle Ctx.TODO 7 ⟨"bafy7"⟩ 3 false = (none, d1) ∧
      d1.DB = pinningShuttle.DB ∧ d1.outgoing = pinningShuttle.outgoing ∧
      d1.detached = pinningShuttle.detached ∧ d1.blockstore = pinningShuttle.blockstore ∧
      d1.PinMgr = pinningShuttle.PinMgr ++ [queuedOp 7 ⟨"bafy7"⟩ 3 false] :=
  addPin_pinning_requeues pinningShuttle Ctx.TODO 7 ⟨"bafy7"⟩ 3 false
    { ID := 1, Content := 7, Cid := ⟨"bafy7"⟩, UserID := 3, Pinning := true }
    (fun _ => rfl) (by decide) rfl rfl

/-- Every object objectsForPin returns has an undefined Cid and Size 0. -/
theorem scannedObjects_undefined (s : Store) (pin : Nat) :
    ∀ o ∈ scannedObjects s pin, o.Cid = Cid.Undef ∧ o.Size = 0 := by
  intro o ho
  simp only [scannedObjects, List.mem_flatten, List.mem_map, List.mem_filter] at ho
  obtain ⟨l, ⟨r, _, rfl⟩, hol⟩ := ho
  rw [List.eq_of_mem_replicate hol]
  exact ⟨rfl, rfl⟩

/-- With distinct object keys and every reference naming an object of the
table, objectsForPin returns as many objects as the Pin has linked objects. -/
theorem scannedObjects_length (s : Store) (pin : Nat)
    (hkeys : (s.objects.map (fun o => o.ID)).Nodup)
    (hrefs : ∀ r ∈ s.objRefs, ∃ o ∈ s.objects, o.ID = r.Object) :
    (scannedObjects s pin).length = (objectsLinkedTo s pin).length := by
  have hone : ∀ r ∈ s.objRefs, (s.objects.filter (fun o => o.ID == r.Object)).length = 1 := by
    intro r hr
    obtain ⟨o, ho, hid⟩ := hrefs r hr
    have hpos : 0 < (s.objects.filter (fun o => o.ID == r.Object)).length :=
      List.length_pos.2 (List.ne_nil_of_mem (List.mem_filter.2 ⟨ho, by simp [hid]⟩))
    have hle : (s.objects.filter (fun o => o.ID == r.Object)).length ≤ 1 := by
      have hnd : ((s.objects.filter (fun o => o.ID == r.Object)).map (fun o => o.ID)).Nodup :=
        (List.Nodup.sublist ((List.filter_sublist _).map _) hkeys)
      have hall : ∀ x ∈ (s.objects.filter (fun o => o.ID == r.Object)).map (fun o => o.ID),
          x = r.Object := by
        intro x hx
        obtain ⟨o1, ho1, rfl⟩ := List.mem_map.1 hx
        simpa using (List.mem_filter.1 ho1).2
      have h2 : ((s.objects.filter (fun o => o.ID == r.Object)).map (fun o => o.ID)).length ≤ 1 := by
        cases hl : (s.objects.filter (fun o => o.ID == r.Object)).map (fun o => o.ID) with
        | nil => simp
        | cons x xs =>
          cases xs with
          | nil => simp
          | cons y ys =>
            rw [hl] at hnd hall
            have hx := hall x (by simp)
            have hy := hall y (by simp)
            rw [hx, hy] at hnd
            simp at hnd
      simpa using h2
    omega
  simp only [scannedObjects, objectsLinkedTo, List.length_flatten, List.map_map]
  congr 1
  apply List.map_congr_left
  intro r hr
  have := hone r (List.mem_filter.1 hr).1
  simp [joinCount, this]

/-- What the resend branch of addPin does: when the first Pin found for the
content id is complete (Active, not Pinning, not Failed), addPin returns
success, changes no row, hands nothing to the pin manager, sends nothing itself
and spawns exactly one goroutine; that goroutine, once run, reads objects with
objectsForPin and delivers exactly one PinComplete message carrying the content
id, the Size of the Pin and one entry per object read, every entry with an
undefined Cid and Size 0, changing no row. -/
theorem addPin_active_resends (d : Shuttle) (ctx : Ctx) (c : Nat) (data : Cid) (user : Nat)
    (skip : Bool) (p : Pin) (hcalm : d.calm) (hctx : ctx.done = false)
    (hfound : (pinsWithContent d.DB.pins c).head? = some p)
    (ha : p.Active = true) (hp : p.Pinning = false) (hf : p.Failed = false) :
    ∃ d1, addPin d ctx c data user skip = (none, d1) ∧
      d1.DB = d.DB ∧ d1.PinMgr = d.PinMgr ∧ d1.outgoing = d.outgoing ∧
      d1.blockstore = d.blockstore ∧
      d1.detached = d.detached ++ [Goroutine.resendPinComplete ctx p.ID c p.Size] ∧
      ∃ objects d2, objectsForPin d1 p.ID = (.ok objects, d2) ∧
        objects = scannedObjects d.DB p.ID ∧
        (∀ o ∈ objects, o.Cid = Cid.Undef ∧ o.Size = 0) ∧
        (runGoroutine d1 (Goroutine.resendPinComplete ctx p.ID c p.Size)).outgoing =
          d.outgoing ++
            [{ Op := "PinComplete",
               Params := { PinComplete := some { DBID := c, Size := p.Size,
                                                 Objects := objects.map (fun o => ⟨o.Cid, o.Size⟩) } } }] ∧
        (runGoroutine d1 (Goroutine.resendPinComplete ctx p.ID c p.Size)).DB = d.DB ∧
        (runGoroutine d1 (Goroutine.resendPinComplete ctx p.ID c p.Size)).PinMgr = d.PinMgr := by
  have hc : ∀ n, d.failing n = false := hcalm
  cases hs : pinsWithContent d.DB.pins c with
  | nil => simp [hs] at hfound
  | cons e rest =>
    simp [hs] at hfound
    subst hfound
    simp [addPin, dbFindPins, Shuttle.attempt, Shuttle.tick, hc, hs, hp, hf, ha, spawn, runGoroutine, objectsForPin,
      sendPinCompleteMessage, sendRpcMessage, hctx, OP_PinComplete]
    exact scannedObjects_undefined d.DB e.ID

theorem addPin_active_resends_witness :
    ∃ d1, addPin activeShuttle Ctx.TODO 7 ⟨"bafy7"⟩ 3 false = (none, d1) ∧
      d1.DB = activeShuttle.DB ∧ d1.PinMgr = activeShuttle.PinMgr ∧
      d1.outgoing = activeShuttle.outgoing ∧ d1.blockstore = activeShuttle.blockstore ∧
      d1.detached = activeShuttle.detached ++ [Goroutine.resendPinComplete Ctx.TODO 1 7 30] ∧
      ∃ objects d2, objectsForPin d1 1 = (.ok objects, d2) ∧
        objects = scannedObjects activeShuttle.DB 1 ∧
        (∀ o ∈ objects, o.Cid = Cid.Undef ∧ o.Size = 0) ∧
        (runGoroutine d1 (Goroutine.resendPinComplete Ctx.TODO 1 7 30)).outgoing =
          activeShuttle.outgoing ++
            [{ Op := "PinComplete",
               Params := { PinComplete := some { DBID := 7, Size := 30,
                                                 Objects := objects.map (fun o => ⟨o.Cid, o.Size⟩) } } }] ∧
        (runGoroutine d1 (Goroutine.resendPinComplete Ctx.TODO 1 7 30)).DB = activeShuttle.DB ∧
        (runGoroutine d1 (Goroutine.resendPinComplete Ctx.TODO 1 7 30)).PinMgr = activeShuttle.PinMgr :=
  addPin_active_resends activeShuttle Ctx.TODO 7 ⟨"bafy7"⟩ 3 false
    { ID := 1, Content := 7, Cid := ⟨"bafy7"⟩, UserID := 3, Size := 30, Active := true }
    (fun _ => rfl) rfl (by decide) rfl rfl rfl

/-- C3 fails on objectsForPin: for the completed Pin of activeShuttle (Active,
not Pinning, not Failed), whose two ObjRef rows link the objects (obj1, 10) and
(obj2, 20), a repeated addPin returns success, changes no row, queues nothing
and spawns one goroutine, which delivers exactly one PinComplete message with
the content id 7 and the Size 30 of the Pin; but the Objects of that message
are two entries with undefined Cid and Size 0, not the (Cid, Size) of the
objects linked to the Pin. -/
theorem addPin_resend_loses_objects :
    (pinsWithContent activeShuttle.DB.pins 7).head? =
      some { ID := 1, Content := 7, Cid := ⟨"bafy7"⟩, UserID := 3, Size := 30, Active := true } ∧
    (objectsLinkedTo activeShuttle.DB 1).map (fun o => (⟨o.Cid, o.Size⟩ : PinObj)) =
      [⟨⟨"obj1"⟩, 10⟩, ⟨⟨"obj2"⟩, 20⟩] ∧
    (addPin activeShuttle Ctx.TODO 7 ⟨"bafy7"⟩ 3 false).1 = none ∧
    (addPin activeShuttle Ctx.TODO 7 ⟨"bafy7"⟩ 3 false).2.DB = activeShuttle.DB ∧
    (addPin activeShuttle Ctx.TODO 7 ⟨"bafy7"⟩ 3 false).2.PinMgr = [] ∧
    (addPin activeShuttle Ctx.TODO 7 ⟨"bafy7"⟩ 3 false).2.outgoing = [] ∧
    (addPin activeShuttle Ctx.TODO 7 ⟨"bafy7"⟩ 3 false).2.detached =
      [Goroutine.resendPinComplete Ctx.TODO 1 7 30] ∧
    (runGoroutine (addPin activeShuttle Ctx.TODO 7 ⟨"bafy7"⟩ 3 false).2
        (Goroutine.resendPinComplete Ctx.TODO 1 7 30)).outgoing =
      [{ Op := "PinComplete",
         Params := { PinComplete := some { DBID := 7, Size := 30,
                                           Objects := [⟨Cid.Undef, 0⟩, ⟨Cid.Undef, 0⟩] } } }] ∧
    ([⟨Cid.Undef, 0⟩, ⟨Cid.Undef, 0⟩] : List PinObj) ≠
      (objectsLinkedTo activeShuttle.DB 1).map (fun o => (⟨o.Cid, o.Size⟩ : PinObj)) := by
  decide

/-- C4: when the first Pin found for the content id is marked Failed, addPin
returns an error, delivers exactly one UpdatePinStatus message with the content
id and status failed, creates and changes no row, and hands nothing to the pin
manager. -/
theorem addPin_failed_signals (d : Shuttle) (ctx : Ctx) (c : Nat) (data : Cid) (user : Nat)
    (skip : Bool) (p : Pin) (hcalm : d.calm) (hctx : ctx.done = false)
    (hfound : (pinsWithContent d.DB.pins c).head? = some p) (hf : p.Failed = true) :
    ∃ d1, addPin d ctx c data user skip = (some Err.failedPreviously, d1) ∧
      d1.DB = d.DB ∧ d1.PinMgr = d.PinMgr ∧ d1.detached = d.detached ∧
      d1.blockstore = d.blockstore ∧
      d1.outgoing = d.outgoing ++
        [{ Op := OP_UpdatePinStatus,
           Params := { UpdatePinStatus := some { DBID := c, Status := "failed" } } }] := by
  have hc : ∀ n, d.failing n = false := hcalm
  cases hs : pinsWithContent d.DB.pins c with
  | nil => simp [hs] at hfound
  | cons e rest =>
    simp [hs] at hfound
    subst hfound
    simp [addPin, dbFindPins, Shuttle.attempt, Shuttle.tick, hc, hs, hf, sendRpcMessage, hctx,
      OP_UpdatePinStatus]

theorem addPin_failed_signals_witness :
    ∃ d1, addPin failedShuttle Ctx.TODO 7 ⟨"bafy7"⟩ 3 false = (some Err.failedPreviously, d1) ∧
      d1.DB = failedShuttle.DB ∧ d1.PinMgr = failedShuttle.PinMgr ∧
      d1.detached = failedShuttle.detached ∧ d1.blockstore = failedShuttle.blockstore ∧
      d1.outgoing = failedShuttle.outgoing ++
        [{ Op := OP_UpdatePinStatus,
           Params := { UpdatePinStatus := some { DBID := 7, Status := "failed" } } }] :=
  addPin_failed_signals failedShuttle Ctx.TODO 7 ⟨"bafy7"⟩ 3 false
    { ID := 1, Content := 7, Cid := ⟨"bafy7"⟩, UserID := 3, Failed := true }
    (fun _ => rfl) rfl (by decide) rfl

/-- C5: when the store has no Pin row for the content id, addPin returns
success, appends exactly one Pin row (the given content id, cid and user,
Pinning, neither Active nor Failed, under a primary key no other row has),
leaves every other row, the outbound channel and the block store unchanged,
and hands exactly one operation to the pin manager carrying the cid, content
id, user and the skipLimiter flag; handleRpcAddPin is addPin with skipLimiter
false. -/
theorem addPin_new_admits (d : Shuttle) (ctx : Ctx) (c : Nat) (data : Cid) (user : Nat)
    (skip : Bool) (hcalm : d.calm) (hnone : pinsWithContent d.DB.pins c = []) :
    (∃ id d1, addPin d ctx c data user skip = (none, d1) ∧
      d1.DB.pins = d.DB.pins ++
        [{ ID := id, Content := c, Cid := data, UserID := user, Size := 0, Active := false,
           Failed := false, Pinning := true, Aggregate := false }] ∧
      (∀ q ∈ d.DB.pins, q.ID ≠ id) ∧
      d1.DB.objects = d.DB.objects ∧ d1.DB.objRefs = d.DB.objRefs ∧
      d1.outgoing = d.outgoing ∧ d1.detached = d.detached ∧ d1.blockstore = d.blockstore ∧
      d1.PinMgr = d.PinMgr ++
        [{ Obj := data, ContId := c, UserId := user, Status := "queued",
           SkipLimiter := skip }]) ∧
    ∀ apo : AddPin, handleRpcAddPin d ctx apo = addPin d ctx apo.DBID apo.Cid apo.UserId false := by
  have hc : ∀ n, d.failing n = false := hcalm
  refine ⟨⟨nextID (d.DB.pins.map (fun p => p.ID)), ?_⟩, fun _ => rfl⟩
  simp [addPin, dbFindPins, Shuttle.attempt, Shuttle.tick, hc, hnone, dbCreatePin, pinMgrAdd, Shuttle.tick,
    Shuttle.insertPin]
  intro q hq heq
  have := lt_nextID (d.DB.pins.map (fun p => p.ID)) q.ID (List.mem_map_of_mem _ hq)
  omega

theorem addPin_new_admits_witness :
    (∃ id d1, addPin pinningShuttle Ctx.TODO 8 ⟨"bafy8"⟩ 4 true = (none, d1) ∧
      d1.DB.pins = pinningShuttle.DB.pins ++
        [{ ID := id, Content := 8, Cid := ⟨"bafy8"⟩, UserID := 4, Size := 0, Active := false,
           Failed := false, Pinning := true, Aggregate := false }] ∧
      (∀ q ∈ pinningShuttle.DB.pins, q.ID ≠ id) ∧
      d1.DB.objects = pinningShuttle.DB.objects ∧ d1.DB.objRefs = pinningShuttle.DB.objRefs ∧
      d1.outgoing = pinningShuttle.outgoing ∧ d1.detached = pinningShuttle.detached ∧
      d1.blockstore = pinningShuttle.blockstore ∧
      d1.PinMgr = pinningShuttle.PinMgr ++
        [{ Obj := ⟨"bafy8"⟩, ContId := 8, UserId := 4, Status := "queued",
           SkipLimiter := true }]) ∧
    ∀ apo : AddPin, handleRpcAddPin pinningShuttle Ctx.TODO apo =
      addPin pinningShuttle Ctx.TODO apo.DBID apo.Cid apo.UserId false :=
  addPin_new_admits pinningShuttle Ctx.TODO 8 ⟨"bafy8"⟩ 4 true
    (fun _ => rfl) (by decide)

/-- An update keyed by the next auto-increment key touches no existing row. -/
theorem map_update_fresh (pins : List Pin) (f : Pin → Pin) :
    pins.map (fun p => if p.ID = nextID (pins.map (fun p => p.ID)) then f p else p) = pins := by
  have h : ∀ p ∈ pins, (if p.ID = nextID (pins.map (fun p => p.ID)) then f p else p) = p := by
    intro p hp
    have := lt_nextID (pins.map (fun p => p.ID)) p.ID (List.mem_map_of_mem _ hp)
    rw [if_neg (by omega)]
  calc pins.map (fun p => if p.ID = nextID (pins.map (fun p => p.ID)) then f p else p)
      = pins.map id := List.map_congr_left h
    _ = pins := List.map_id pins

/-- C8: when the store has no Pin for the aggregate's content id and some
listed constituent has no Pin, or its Pin is not Active or is Failed,
handleRpcAggregateContent returns an error (the store's own failure, record
not found for a missing constituent, or the not-pinned error naming a listed
constituent) and mutates nothing: rows, block store, outbound channel, spawned
goroutines and pin manager are as before.  The Pin of a constituent is the row
the store's First lookup returns (pinFor), its only Pin when content ids are
unique (pinFor_of_unique). -/
theorem aggregate_incomplete_no_mutation (d : Shuttle) (ctx : Ctx) (cmd : AggregateContent)
    (hnone : pinsWithContent d.DB.pins cmd.DBID = [])
    (hbad : ∃ c ∈ cmd.Contents,
      ∀ p, pinFor d.DB.pins c = some p → p.Active = false ∨ p.Failed = true) :
    ∃ e d1, handleRpcAggregateContent d ctx cmd = (some e, d1) ∧
      d1.DB = d.DB ∧ d1.blockstore = d.blockstore ∧ d1.outgoing = d.outgoing ∧
      d1.detached = d.detached ∧ d1.PinMgr = d.PinMgr ∧
      (e = .external ∨ e = .recordNotFound ∨ ∃ c ∈ cmd.Contents, e = .notPinned c) := by
  by_cases hf : d.failing d.calls = true
  · exact ⟨.external, d.tick, by simp [handleRpcAggregateContent, dbFirstPin_of_failing hf],
      rfl, rfl, rfl, rfl, rfl, Or.inl rfl⟩
  · have hf0 : d.failing d.calls = false := by simpa using hf
    have h0 := dbFirstPin_of_none hf0 cmd.DBID ((pinFor_eq_none _ _).2 hnone)
    obtain ⟨e, k, he, hcls⟩ :=
      aggregateLoop_error cmd.Contents (wrapInt64 (cmd.ObjData.length : Int)) d.tick hbad
    exact ⟨e, d.tick.ticks k, by simp [handleRpcAggregateContent, h0, he],
      rfl, rfl, rfl, rfl, rfl, hcls⟩

theorem aggregate_incomplete_no_mutation_witness :
    ∃ e d1, handleRpcAggregateContent inflightShuttle Ctx.TODO
        ⟨9, 3, [1], ⟨"root"⟩, [1, 2, 3]⟩ = (some e, d1) ∧
      d1.DB = inflightShuttle.DB ∧ d1.blockstore = inflightShuttle.blockstore ∧
      d1.outgoing = inflightShuttle.outgoing ∧ d1.detached = inflightShuttle.detached ∧
      d1.PinMgr = inflightShuttle.PinMgr ∧
      (e = .external ∨ e = .recordNotFound ∨
        ∃ c ∈ (⟨9, 3, [1], ⟨"root"⟩, [1, 2, 3]⟩ : AggregateContent).Contents, e = .notPinned c) :=
  aggregate_incomplete_no_mutation inflightShuttle Ctx.TODO ⟨9, 3, [1], ⟨"root"⟩, [1, 2, 3]⟩
    (by decide) ⟨1, by decide, by decide⟩

/-- The state a successful handleRpcAggregateContent leaves, when the store
has no Pin for the content id, every constituent has an Active Pin that is not
Failed, and no external call fails. -/
theorem aggregate_of_complete {d : Shuttle} (ctx : Ctx) (cmd : AggregateContent)
    (hcalm : d.calm) (hnone : pinsWithContent d.DB.pins cmd.DBID = [])
    (hall : ∀ c ∈ cmd.Contents,
      ∃ p, pinFor d.DB.pins c = some p ∧ p.Active = true ∧ p.Failed = false) :
    ∃ d1, handleRpcAggregateContent d ctx cmd = (none, d1) ∧
      d1.DB.pins = d.DB.pins ++
        [{ ID := nextID (d.DB.pins.map (fun p => p.ID)), Content := cmd.DBID, Cid := cmd.Root,
           UserID := cmd.UserID,
           Size := wrapInt64 ((cmd.ObjData.length : Int) +
             (cmd.Contents.map (constituentSize d.DB.pins)).sum),
           Active := true, Failed := false, Pinning := true, Aggregate := true }] ∧
      d1.DB.objects = d.DB.objects ++
        [{ ID := nextID (d.DB.objects.map (fun o => o.ID)), Cid := cmd.Root,
           Size := (cmd.ObjData.length : Int) }] ∧
      d1.DB.objRefs = d.DB.objRefs ++
        [{ ID := nextID (d.DB.objRefs.map (fun r => r.ID)),
           Pin := nextID (d.DB.pins.map (fun p => p.ID)),
           Object := nextID (d.DB.objects.map (fun o => o.ID)) }] ∧
      d1.blockstore = d.blockstore ++ [{ data := cmd.ObjData, cid := cmd.Root }] ∧
      d1.PinMgr = d.PinMgr ∧ d1.outgoing = d.outgoing ∧
      d1.detached = d.detached ++
        [Goroutine.pinComplete ctx cmd.DBID (wrapInt64 ((cmd.ObjData.length : Int) +
          (cmd.Contents.map (constituentSize d.DB.pins)).sum)) []] ∧
      d1.calm := by
  have h0 := dbFirstPin_of_none (hcalm d.calls) cmd.DBID ((pinFor_eq_none _ _).2 hnone)
  have h1 := aggregateLoop_ok cmd.Contents (cmd.ObjData.length : Int) d.tick hcalm hall
  have hc : ∀ n, d.failing n = false := hcalm
  simp only [handleRpcAggregateContent, h0, h1]
  simp [dbCreatePin, newBlockWithCid, blockstorePut,
    dbUpdateActive, dbCreateObject, dbCreateObjRef, Shuttle.attempt, Shuttle.tick, Shuttle.ticks,
    Shuttle.insertPin, Shuttle.setActive, Shuttle.insertObject, Shuttle.insertObjRef, spawn, hc,
    map_update_fresh, Shuttle.calm]

/-- C9 (as stated) fails: with two Active constituents of size 2^62 each and
an empty root object, the aggregate Pin's Size is not the sum 2^63 of the
constituent sizes plus the root length: the int64 total has wrapped. -/
theorem aggregate_size_overflows :
    hugePinsShuttle.calm ∧ pinsWithContent hugePinsShuttle.DB.pins 9 = [] ∧
    (∀ c ∈ [1, 2], ∃ p, pinFor hugePinsShuttle.DB.pins c = some p ∧ p.Active = true ∧
      p.Failed = false) ∧
    ∃ d1, handleRpcAggregateContent hugePinsShuttle Ctx.TODO ⟨9, 3, [1, 2], ⟨"root"⟩, []⟩ =
        (none, d1) ∧
      (∃ p ∈ d1.DB.pins, p.Content = 9 ∧ p.Size = -9223372036854775808) ∧
      ∀ p ∈ d1.DB.pins, p.Content = 9 →
        p.Size ≠ (4611686018427387904 + 4611686018427387904) + 0 := by
  have hcalm : hugePinsShuttle.calm := fun _ => rfl
  have hall : ∀ c ∈ [1, 2], ∃ p, pinFor hugePinsShuttle.DB.pins c = some p ∧ p.Active = true ∧
      p.Failed = false := by decide
  refine ⟨hcalm, by decide, hall, ?_⟩
  obtain ⟨d1, h1, hp, _⟩ := aggregate_of_complete Ctx.TODO ⟨9, 3, [1, 2], ⟨"root"⟩, []⟩
    hcalm (by decide) hall
  refine ⟨d1, h1, ?_, ?_⟩
  · rw [hp]
    exact ⟨_, List.mem_append_right _ (List.mem_singleton_self _), rfl, by decide⟩
  · rw [hp]
    decide

/-- C9 (as amended): when the store has no Pin for content id c, every listed
constituent has an Active Pin that is not Failed, and every store and block
store call succeeds, handleRpcAggregateContent returns success and appends
exactly one Pin row (Content c, Aggregate, Active, under a key no other Pin
has) whose Size is the sum of the constituents' Sizes over the list plus the
byte length of the root object, reduced to the int64 range, and equal to that
sum whenever the sum lies in the int64 range; it appends exactly one Object
row (the root cid, the byte length of the root object) and exactly one ObjRef
row linking the new Pin to the new Object, and changes no other row.  The Pin
of a constituent is the row the store's First lookup returns (pinFor). -/
theorem aggregate_creates_pin (d : Shuttle) (ctx : Ctx) (cmd : AggregateContent)
    (hcalm : d.calm) (hnone : pinsWithContent d.DB.pins cmd.DBID = [])
    (hall : ∀ c ∈ cmd.Contents,
      ∃ p, pinFor d.DB.pins c = some p ∧ p.Active = true ∧ p.Failed = false) :
    ∃ d1 pinID objID refID size, handleRpcAggregateContent d ctx cmd = (none, d1) ∧
      d1.DB.pins = d.DB.pins ++
        [{ ID := pinID, Content := cmd.DBID, Cid := cmd.Root, UserID := cmd.UserID,
           Size := size, Active := true, Failed := false, Pinning := true,
           Aggregate := true }] ∧
      (∀ q ∈ d.DB.pins, q.ID ≠ pinID) ∧
      size = wrapInt64 ((cmd.Contents.map (constituentSize d.DB.pins)).sum +
        (cmd.ObjData.length : Int)) ∧
      (-(2 ^ 63) ≤ (cmd.Contents.map (constituentSize d.DB.pins)).sum +
          (cmd.ObjData.length : Int) →
        (cmd.Contents.map (constituentSize d.DB.pins)).sum + (cmd.ObjData.length : Int) < 2 ^ 63 →
        size = (cmd.Contents.map (constituentSize d.DB.pins)).sum + (cmd.ObjData.length : Int)) ∧
      d1.DB.objects = d.DB.objects ++
        [{ ID := objID, Cid := cmd.Root, Size := (cmd.ObjData.length : Int) }] ∧
      (∀ o ∈ d.DB.objects, o.ID ≠ objID) ∧
      d1.DB.objRefs = d.DB.objRefs ++ [{ ID := refID, Pin := pinID, Object := objID }] := by
  obtain ⟨d1, h1, hp, ho, hr, _⟩ := aggregate_of_complete ctx cmd hcalm hnone hall
  refine ⟨d1, _, _, _, _, h1, hp, ?_, ?_, ?_, ho, ?_, hr⟩
  · intro q hq
    have := lt_nextID (d.DB.pins.map (fun p => p.ID)) q.ID (List.mem_map_of_mem _ hq)
    omega
  · rw [add_comm]
  · intro hlo hhi
    rw [add_comm]
    exact wrapInt64_of_range _ hlo hhi
  · intro o ho1
    have := lt_nextID (d.DB.objects.map (fun o => o.ID)) o.ID (List.mem_map_of_mem _ ho1)
    omega

theorem aggregate_creates_pin_witness :
    ∃ d1 pinID objID refID size,
      handleRpcAggregateContent twoPinsShuttle Ctx.TODO
        ⟨9, 3, [1, 2], ⟨"root"⟩, List.replicate 50 0⟩ = (none, d1) ∧
      d1.DB.pins = twoPinsShuttle.DB.pins ++
        [{ ID := pinID, Content := 9, Cid := ⟨"root"⟩, UserID := 3,
           Size := size, Active := true, Failed := false, Pinning := true,
           Aggregate := true }] ∧
      (∀ q ∈ twoPinsShuttle.DB.pins, q.ID ≠ pinID) ∧
      size = wrapInt64 (([1, 2].map (constituentSize twoPinsShuttle.DB.pins)).sum +
        ((List.replicate 50 (0 : UInt8)).length : Int)) ∧
      (-(2 ^ 63) ≤ ([1, 2].map (constituentSize twoPinsShuttle.DB.pins)).sum +
          ((List.replicate 50 (0 : UInt8)).length : Int) →
        ([1, 2].map (constituentSize twoPinsShuttle.DB.pins)).sum +
          ((List.replicate 50 (0 : UInt8)).length : Int) < 2 ^ 63 →
        size = ([1, 2].map (constituentSize twoPinsShuttle.DB.pins)).sum +
          ((List.replicate 50 (0 : UInt8)).length : Int)) ∧
      d1.DB.objects = twoPinsShuttle.DB.objects ++
        [{ ID := objID, Cid := ⟨"root"⟩,
           Size := ((List.replicate 50 (0 : UInt8)).length : Int) }] ∧
      (∀ o ∈ twoPinsShuttle.DB.objects, o.ID ≠ objID) ∧
      d1.DB.objRefs = twoPinsShuttle.DB.objRefs ++
        [{ ID := refID, Pin := pinID, Object := objID }] :=
  aggregate_creates_pin twoPinsShuttle Ctx.TODO ⟨9, 3, [1, 2], ⟨"root"⟩, List.replicate 50 0⟩
    (fun _ => rfl) (by decide) (by decide)

/-- The example of the specification: constituents of sizes 100 and 250 and a
root object of 50 bytes give an aggregate Pin of Size 400 with one Object row
of Size 50 and one ObjRef row linking the two. -/
theorem aggregate_example_400 :
    ∃ d1, handleRpcAggregateContent twoPinsShuttle Ctx.TODO
        ⟨9, 3, [1, 2], ⟨"root"⟩, List.replicate 50 0⟩ = (none, d1) ∧
      d1.DB.pins = twoPinsShuttle.DB.pins ++
        [{ ID := 3, Content := 9, Cid := ⟨"root"⟩, UserID := 3, Size := 400, Active := true,
           Failed := false, Pinning := true, Aggregate := true }] ∧
      d1.DB.objects = [{ ID := 1, Cid := ⟨"root"⟩, Size := 50 }] ∧
      d1.DB.objRefs = [{ ID := 1, Pin := 3, Object := 1 }] := by
  obtain ⟨d1, h1, hp, ho, hr, _⟩ := aggregate_of_complete Ctx.TODO
    ⟨9, 3, [1, 2], ⟨"root"⟩, List.replicate 50 0⟩ (fun _ => rfl)
    (show pinsWithContent twoPinsShuttle.DB.pins 9 = [] by decide) (by decide)
  refine ⟨d1, h1, ?_, ?_, ?_⟩
  · rw [hp]; decide
  · rw [ho]; decide
  · rw [hr]; decide

/-! ### Effect of the handlers on the pins table, whatever fails -/

theorem dbFindPins_inv_ok {d d1 : Shuttle} {c : Nat} {l : List Pin}
    (h : dbFindPins d c = (.ok l, d1)) : l = pinsWithContent d.DB.pins c ∧ d1 = d.tick := by
  cases hf : d.failing d.calls <;> simp [dbFindPins, Shuttle.attempt, hf] at h
  exact ⟨h.1.symm, h.2.symm⟩

theorem dbFindPins_inv_error {d d1 : Shuttle} {c : Nat} {e : Err}
    (h : dbFindPins d c = (.error e, d1)) : d1 = d.tick := by
  cases hf : d.failing d.calls <;> simp [dbFindPins, Shuttle.attempt, hf] at h
  exact h.2.symm

theorem dbFirstPin_inv_ok {d d1 : Shuttle} {c : Nat} {p : Pin}
    (h : dbFirstPin d c = (.ok p, d1)) : pinFor d.DB.pins c = some p ∧ d1 = d.tick := by
  cases hf : d.failing d.calls <;> cases hp : pinFor d.DB.pins c <;>
    simp [dbFirstPin, Shuttle.attempt, hf, hp] at h
  exact ⟨by rw [h.1], h.2.symm⟩

theorem dbFirstPin_inv_error {d d1 : Shuttle} {c : Nat} {e : Err}
    (h : dbFirstPin d c = (.error e, d1)) :
    d1 = d.tick ∧ (e = .recordNotFound → pinFor d.DB.pins c = none) := by
  cases hf : d.failing d.calls <;> cases hp : pinFor d.DB.pins c <;>
    simp [dbFirstPin, Shuttle.attempt, hf, hp] at h <;>
    refine ⟨h.2.symm, fun he => ?_⟩ <;> first | rfl | (rw [he] at h; simp at h)

theorem dbCountPins_inv_ok {d d1 : Shuttle} {c : Nat} {n : Int}
    (h : dbCountPins d c = (.ok n, d1)) :
    n = ((pinsWithContent d.DB.pins c).length : Int) ∧ d1 = d.tick := by
  cases hf : d.failing d.calls <;> simp [dbCountPins, Shuttle.attempt, hf] at h
  exact ⟨h.1.symm, h.2.symm⟩

theorem dbCountPins_inv_error {d d1 : Shuttle} {c : Nat} {e : Err}
    (h : dbCountPins d c = (.error e, d1)) : d1 = d.tick := by
  cases hf : d.failing d.calls <;> simp [dbCountPins, Shuttle.attempt, hf] at h
  exact h.2.symm

theorem dbCreatePin_inv_ok {d d1 : Shuttle} {pin : Pin} {id : Nat}
    (h : dbCreatePin d pin = (.ok id, d1)) :
    id = nextID (d.DB.pins.map (fun p => p.ID)) ∧ d1 = d.tick.insertPin pin := by
  cases hf : d.failing d.calls <;> simp [dbCreatePin, Shuttle.attempt, hf] at h
  exact ⟨h.1.symm, h.2.symm⟩

theorem dbCreatePin_inv_error {d d1 : Shuttle} {pin : Pin} {e : Err}
    (h : dbCreatePin d pin = (.error e, d1)) : d1 = d.tick := by
  cases hf : d.failing d.calls <;> simp [dbCreatePin, Shuttle.attempt, hf] at h
  exact h.2.symm

theorem dbCreateObject_snd_pins (d : Shuttle) (obj : Object) :
    (dbCreateObject d obj).2.DB.pins = d.DB.pins := by
  cases hf : d.failing d.calls <;>
    simp [dbCreateObject, Shuttle.attempt, hf, Shuttle.insertObject]

theorem dbCreateObjRef_snd_pins (d : Shuttle) (ref : ObjRef) :
    (dbCreateObjRef d ref).2.DB.pins = d.DB.pins := by
  cases hf : d.failing d.calls <;>
    simp [dbCreateObjRef, Shuttle.attempt, hf, Shuttle.insertObjRef]

theorem newBlockWithCid_snd (d : Shuttle) (data : List UInt8) (c : Cid) :
    (newBlockWithCid d data c).2 = d.tick := by
  cases hf : d.failing d.calls <;> simp [newBlockWithCid, Shuttle.attempt, hf]

theorem blockstorePut_snd_DB (d : Shuttle) (blk : Block) :
    (blockstorePut d blk).2.DB = d.DB := by
  cases hf : d.failing d.calls <;> simp [blockstorePut, Shuttle.attempt, hf]

theorem dbUpdatePinning_inv_ok {d d1 : Shuttle} {id : Nat} {v : Bool}
    (h : dbUpdatePinning d id v = (none, d1)) : d1 = d.tick.setPinning id v := by
  cases hf : d.failing d.calls <;> simp [dbUpdatePinning, Shuttle.attempt, hf] at h
  exact h.symm

theorem dbUpdatePinning_inv_error {d d1 : Shuttle} {id : Nat} {v : Bool} {e : Err}
    (h : dbUpdatePinning d id v = (some e, d1)) : d1 = d.tick := by
  cases hf : d.failing d.calls <;> simp [dbUpdatePinning, Shuttle.attempt, hf] at h
  exact h.2.symm

theorem dbUpdateActive_inv_ok {d d1 : Shuttle} {id : Nat} {v : Bool}
    (h : dbUpdateActive d id v = (none, d1)) : d1 = d.tick.setActive id v := by
  cases hf : d.failing d.calls <;> simp [dbUpdateActive, Shuttle.attempt, hf] at h
  exact h.symm

theorem dbUpdateActive_inv_error {d d1 : Shuttle} {id : Nat} {v : Bool} {e : Err}
    (h : dbUpdateActive d id v = (some e, d1)) : d1 = d.tick := by
  cases hf : d.failing d.calls <;> simp [dbUpdateActive, Shuttle.attempt, hf] at h
  exact h.2.symm

/-- The constituent loop changes nothing but the count of external calls. -/
theorem aggregateLoop_snd (cs : List Nat) :
    ∀ (t : Int) (d : Shuttle), ∃ k, (aggregateLoop cs t d).2 = d.ticks k := by
  induction cs with
  | nil => intro t d; exact ⟨0, rfl⟩
  | cons c cs ih =>
    intro t d
    simp only [aggregateLoop]
    split
    · rename_i err d1 h
      exact ⟨1, by rw [(dbFirstPin_inv_error h).1]; rfl⟩
    · rename_i aggr d1 h
      rw [(dbFirstPin_inv_ok h).2]
      split
      · exact ⟨1, rfl⟩
      · obtain ⟨k, hk⟩ := ih (wrapInt64 (t + aggr.Size)) d.tick
        exact ⟨k + 1, by rw [hk, tick_ticks]⟩

/-- What addPin does to the store, whatever fails: nothing, or the repair of
the first Pin found (neither Active, Pinning nor Failed), or the insert of the
fresh Pin when there was none for the content id. -/
theorem addPin_effect (d : Shuttle) (ctx : Ctx) (c : Nat) (data : Cid) (user : Nat)
    (skip : Bool) :
    (addPin d ctx c data user skip).2.DB = d.DB ∨
    (∃ p rest, pinsWithContent d.DB.pins c = p :: rest ∧ p.Active = false ∧
      p.Pinning = false ∧ p.Failed = false ∧
      (addPin d ctx c data user skip).2.DB = (d.setPinning p.ID true).DB) ∨
    (pinsWithContent d.DB.pins c = [] ∧
      (addPin d ctx c data user skip).2.DB = (d.insertPin (freshPin c data user)).DB) := by
  rcases h : dbFindPins d c with ⟨res, d1⟩
  cases res with
  | error e =>
    simp only [addPin, h]
    exact Or.inl (by rw [dbFindPins_inv_error h]; rfl)
  | ok l =>
    obtain ⟨hl, rfl⟩ := dbFindPins_inv_ok h
    cases l with
    | nil =>
      rcases h2 : dbCreatePin d.tick (freshPin c data user) with ⟨res2, d2⟩
      simp only [freshPin] at h2
      cases res2 with
      | error e =>
        simp only [addPin, h, h2]
        exact Or.inl (by rw [dbCreatePin_inv_error h2]; rfl)
      | ok id =>
        simp only [addPin, h, h2]
        refine Or.inr (Or.inr ⟨hl.symm, ?_⟩)
        rw [(dbCreatePin_inv_ok h2).2]
        rfl
    | cons existing rest =>
      by_cases hF : existing.Failed = true
      · simp only [addPin, h, hF, if_true]
        exact Or.inl (by simp only [sendRpcMessage]; split <;> rfl)
      · by_cases hdone : (!existing.Pinning && existing.Active) = true
        · simp only [addPin, h, hF, hdone, if_true, if_false]
          exact Or.inl rfl
        · by_cases hrepair : (!existing.Active && !existing.Pinning) = true
          · have hflags : existing.Active = false ∧ existing.Pinning = false := by
              simpa using hrepair
            rcases h2 : dbUpdatePinning d.tick existing.ID true with ⟨res2, d2⟩
            cases res2 with
            | some e =>
              simp only [addPin, h, hF, hdone, hrepair, h2, if_true, if_false]
              exact Or.inl (by rw [dbUpdatePinning_inv_error h2]; rfl)
            | none =>
              simp only [addPin, h, hF, hdone, hrepair, h2, if_true, if_false]
              refine Or.inr (Or.inl ⟨existing, rest, hl.symm, hflags.1, hflags.2,
                by simpa using hF, ?_⟩)
              rw [dbUpdatePinning_inv_ok h2]
              rfl
          · simp only [addPin, h, hF, hdone, hrepair, if_true, if_false]
            exact Or.inl rfl

theorem pins_insertPin (d : Shuttle) (pin : Pin) :
    (d.insertPin pin).DB.pins =
      d.DB.pins ++ [{ pin with ID := nextID (d.DB.pins.map (fun p => p.ID)) }] := rfl

/-- What handleRpcAggregateContent does to the pins table, whatever fails:
nothing, or the insert of one Pin for the aggregate's content id, which had
none. -/
theorem aggregate_effect_pins (d : Shuttle) (ctx : Ctx) (cmd : AggregateContent)
    (r : Option Err × Shuttle) (hr : handleRpcAggregateContent d ctx cmd = r) :
    r.2.DB.pins = d.DB.pins ∨
    (pinsWithContent d.DB.pins cmd.DBID = [] ∧
      ∃ q, q.Content = cmd.DBID ∧ q.Failed = false ∧ r.2.DB.pins = d.DB.pins ++ [q] ∧
        q.ID = nextID (d.DB.pins.map (fun p => p.ID))) := by
  unfold handleRpcAggregateContent at hr
  split at hr
  · rename_i p d1 h0
    subst hr
    exact Or.inl (by rw [(dbFirstPin_inv_ok h0).2]; rfl)
  · rename_i d1 h0
    have hnone : pinsWithContent d.DB.pins cmd.DBID = [] :=
      (pinFor_eq_none _ _).1 ((dbFirstPin_inv_error h0).2 rfl)
    have hd1 : d1.DB.pins = d.DB.pins := by rw [(dbFirstPin_inv_error h0).1]; rfl
    split at hr
    · rename_i err d2 h1
      subst hr
      obtain ⟨k, hk⟩ := aggregateLoop_snd cmd.Contents (wrapInt64 cmd.ObjData.length) d1
      rw [h1] at hk
      exact Or.inl (by simp only at hk; rw [hk]; simpa using hd1)
    · rename_i totalSize d2 h1
      have hd2 : d2.DB.pins = d.DB.pins := by
        obtain ⟨k, hk⟩ := aggregateLoop_snd cmd.Contents (wrapInt64 cmd.ObjData.length) d1
        rw [h1] at hk
        simp only at hk
        rw [hk]
        simpa using hd1
      dsimp only at hr
      split at hr
      · rename_i err d3 h2
        subst hr
        exact Or.inl (by rw [dbCreatePin_inv_error h2]; simpa using hd2)
      · rename_i pinID d3 h2
        obtain ⟨hid, hd3⟩ := dbCreatePin_inv_ok h2
        have hp3 : d3.DB.pins = d.DB.pins ++
            [{ ID := pinID, Content := cmd.DBID, Cid := cmd.Root, UserID := cmd.UserID,
               Size := totalSize, Active := false, Pinning := true, Aggregate := true }] := by
          rw [hd3, pins_insertPin, hid]
          simp [hd2]
        have hid2 : pinID = nextID (d.DB.pins.map (fun p => p.ID)) := by rw [hid, hd2]
        refine Or.inr ⟨hnone, ?_⟩
        split at hr
        · rename_i err d4 h3
          subst hr
          have : d4 = d3.tick := by rw [← newBlockWithCid_snd d3 cmd.ObjData cmd.Root, h3]
          exact ⟨_, rfl, rfl, by rw [this]; simpa using hp3, hid2⟩
        · rename_i blk d4 h3
          have hd4 : d4 = d3.tick := by rw [← newBlockWithCid_snd d3 cmd.ObjData cmd.Root, h3]
          split at hr
          · rename_i err d5 h4
            subst hr
            have : d5.DB = d4.DB := by rw [← blockstorePut_snd_DB d4 blk, h4]
            exact ⟨_, rfl, rfl, by simp only [this, hd4]; simpa using hp3, hid2⟩
          · rename_i d5 h4
            have hd5 : d5.DB = d4.DB := by rw [← blockstorePut_snd_DB d4 blk, h4]
            have hp5 : d5.DB.pins = d.DB.pins ++
                [{ ID := pinID, Content := cmd.DBID, Cid := cmd.Root, UserID := cmd.UserID,
                   Size := totalSize, Active := false, Pinning := true, Aggregate := true }] := by
              rw [hd5, hd4]; simpa using hp3
            split at hr
            · rename_i err d6 h5
              subst hr
              exact ⟨_, rfl, rfl, by rw [dbUpdateActive_inv_error h5]; simpa using hp5, hid2⟩
            · rename_i d6 h5
              have hp6 : d6.DB.pins = d.DB.pins ++
                  [{ ID := pinID, Content := cmd.DBID, Cid := cmd.Root, UserID := cmd.UserID,
                     Size := totalSize, Active := true, Pinning := true, Aggregate := true }] := by
                rw [dbUpdateActive_inv_ok h5]
                simp only [Shuttle.setActive, tick_DB, hp5, List.map_append, hid2,
                  map_update_fresh]
                simp
              split at hr
              · rename_i err d7 h6
                subst hr
                have : d7.DB.pins = d6.DB.pins := by
                  rw [← dbCreateObject_snd_pins d6 _, h6]
                exact ⟨_, rfl, rfl, by simp only [this]; exact hp6, hid2⟩
              · rename_i objID d7 h6
                have hp7 : d7.DB.pins = d6.DB.pins := by
                  rw [← dbCreateObject_snd_pins d6 _, h6]
                split at hr
                · rename_i err d8 h7
                  subst hr
                  have : d8.DB.pins = d7.DB.pins := by
                    rw [← dbCreateObjRef_snd_pins d7 _, h7]
                  exact ⟨_, rfl, rfl, by simp only [this, hp7]; exact hp6, hid2⟩
                · rename_i refID d8 h7
                  subst hr
                  have : d8.DB.pins = d7.DB.pins := by
                    rw [← dbCreateObjRef_snd_pins d7 _, h7]
                  exact ⟨_, rfl, rfl, by simp only [spawn, this, hp7]; exact hp6, hid2⟩
  · rename_i err d1 hne h0
    subst hr
    exact Or.inl (by rw [(dbFirstPin_inv_error h0).1]; rfl)

theorem pinsWithContent_append (l1 l2 : List Pin) (c : Nat) :
    pinsWithContent (l1 ++ l2) c = pinsWithContent l1 c ++ pinsWithContent l2 c := by
  simp [pinsWithContent]

/-- A row-wise update that keeps the content id keeps the rows a content query
selects, up to the update. -/
theorem pinsWithContent_map (pins : List Pin) (f : Pin → Pin)
    (hf : ∀ p, (f p).Content = p.Content) (c : Nat) :
    pinsWithContent (pins.map f) c = (pinsWithContent pins c).map f := by
  induction pins with
  | nil => rfl
  | cons p ps ih =>
    simp only [pinsWithContent, List.map_cons, List.filter_cons, hf] at ih ⊢
    by_cases h : (p.Content == c) = true
    · simp [h, ih]
    · simp [h, ih]

theorem unique_of_length_le_one (pins : List Pin) (h : pins.length ≤ 1) : UniqueContent pins :=
  fun _ => Nat.le_trans (List.length_filter_le _ _) h

theorem unique_append_fresh (pins : List Pin) (q : Pin) (hu : UniqueContent pins)
    (hnone : pinsWithContent pins q.Content = []) : UniqueContent (pins ++ [q]) := by
  intro c
  rw [pinsWithContent_append, List.length_append]
  by_cases h : q.Content = c
  · subst h
    rw [hnone]
    simpa using List.length_filter_le _ [q]
  · have : pinsWithContent [q] c = [] := by simp [pinsWithContent, h]
    rw [this]
    simpa using hu c

theorem unique_map (pins : List Pin) (f : Pin → Pin) (hf : ∀ p, (f p).Content = p.Content)
    (hu : UniqueContent pins) : UniqueContent (pins.map f) := by
  intro c
  rw [pinsWithContent_map pins f hf, List.length_map]
  exact hu c

/-- Whatever fails, addPin keeps at most one Pin row per content id. -/
theorem addPin_unique (d : Shuttle) (ctx : Ctx) (c : Nat) (data : Cid) (user : Nat)
    (skip : Bool) (hu : UniqueContent d.DB.pins) :
    UniqueContent (addPin d ctx c data user skip).2.DB.pins := by
  rcases addPin_effect d ctx c data user skip with h | ⟨p, rest, _, _, _, _, h⟩ | ⟨hnone, h⟩
  · rw [h]; exact hu
  · rw [h]
    exact unique_map _ _ (fun q => by by_cases hq : q.ID = p.ID <;> simp [hq]) hu
  · rw [h, pins_insertPin]
    exact unique_append_fresh _ _ hu hnone

/-- The TakeContent loop keeps every property of the pins table that addPin keeps. -/
theorem takeContentLoop_preserves (I : List Pin → Prop)
    (hadd : ∀ (d : Shuttle) (ctx : Ctx) (c : Nat) (data : Cid) (user : Nat) (skip : Bool),
      I d.DB.pins → I (addPin d ctx c data user skip).2.DB.pins)
    (ctx : Ctx) (cs : List ContentFetch) :
    ∀ d : Shuttle, I d.DB.pins → I (takeContentLoop ctx cs d).2.DB.pins := by
  induction cs with
  | nil => intro d h; exact h
  | cons c cs ih =>
    intro d h
    simp only [takeContentLoop]
    split
    · rename_i err d1 h1
      rw [dbCountPins_inv_error h1]
      exact h
    · rename_i count d1 h1
      obtain ⟨_, rfl⟩ := dbCountPins_inv_ok h1
      split
      · exact ih _ h
      · have hstep := hadd d.tick ctx c.ID c.Cid c.UserID true h
        split
        · rename_i err d2 h2
          rw [h2] at hstep
          exact hstep
        · rename_i d2 h2
          rw [h2] at hstep
          exact ih _ hstep

/-- Whatever fails, a pin command keeps at most one Pin row per content id. -/
theorem handlePinCommand_unique (d : Shuttle) (ctx : Ctx) (cmd : PinCommand)
    (hu : UniqueContent d.DB.pins) : UniqueContent (handlePinCommand d ctx cmd).2.DB.pins := by
  cases cmd with
  | addPin apo => exact addPin_unique d ctx _ _ _ _ hu
  | takeContent cmd =>
    exact takeContentLoop_preserves UniqueContent addPin_unique ctx cmd.Contents d hu
  | aggregateContent cmd =>
    rcases aggregate_effect_pins d ctx cmd _ rfl with h | ⟨hnone, q, hq, _, h, _⟩
    · simp only [handlePinCommand]; rw [h]; exact hu
    · simp only [handlePinCommand]; rw [h]
      exact unique_append_fresh _ _ hu (by rw [hq]; exact hnone)

/-- C7: if the store holds at most one Pin row per content id, it still does
after any sequence of AddPin, TakeContent and AggregateContent commands handled
one after the other, whether each of them succeeds or fails and whichever
store or block store calls fail. -/
theorem handlePinCommands_unique (ctx : Ctx) (cmds : List PinCommand) (d : Shuttle)
    (hu : UniqueContent d.DB.pins) : UniqueContent (handlePinCommands ctx cmds d).DB.pins := by
  induction cmds generalizing d with
  | nil => exact hu
  | cons c cs ih => exact ih _ (handlePinCommand_unique d ctx c hu)

theorem handlePinCommands_unique_witness :
    UniqueContent (handlePinCommands Ctx.TODO
      [.addPin ⟨7, 3, ⟨"bafy7"⟩⟩, .takeContent ⟨[⟨8, ⟨"bafy8"⟩, 4⟩, ⟨8, ⟨"bafy8"⟩, 4⟩]⟩,
       .aggregateContent ⟨9, 3, [7], ⟨"root"⟩, [1, 2, 3]⟩, .addPin ⟨8, 4, ⟨"bafy8"⟩⟩]
      pinningShuttle).DB.pins :=
  handlePinCommands_unique Ctx.TODO _ pinningShuttle
    (unique_of_length_le_one _ (by decide))

/-- The TakeContent loop with no store call failing. -/
theorem takeContentLoop_bulk (ctx : Ctx) (cs : List ContentFetch) :
    ∀ d : Shuttle, d.calm →
      ∃ d1 created fresh, takeContentLoop ctx cs d = (none, d1) ∧
        d1.DB.pins = d.DB.pins ++ created ∧
        List.Sublist fresh cs ∧
        (fresh.map (fun c => c.ID)).Nodup ∧
        (∀ c ∈ fresh, pinsWithContent d.DB.pins c.ID = []) ∧
        (∀ c ∈ cs, pinsWithContent d.DB.pins c.ID = [] → c.ID ∈ fresh.map (fun c => c.ID)) ∧
        List.Forall₂ AdmittedFor created fresh ∧
        d1.PinMgr = d.PinMgr ++ fresh.map (fun c => queuedOp c.ID c.Cid c.UserID true) ∧
        d1.DB.objects = d.DB.objects ∧ d1.DB.objRefs = d.DB.objRefs ∧
        d1.outgoing = d.outgoing ∧ d1.detached = d.detached ∧
        d1.blockstore = d.blockstore := by
  induction cs with
  | nil =>
    intro d _
    exact ⟨d, [], [], rfl, by simp, List.Sublist.slnil, by simp, by simp, by simp,
      List.Forall₂.nil, by simp, rfl, rfl, rfl, rfl, rfl⟩
  | cons c cs ih =>
    intro d hc
    by_cases hex : pinsWithContent d.DB.pins c.ID = []
    · -- no Pin yet: addPin creates one and queues it
      have hadd := addPin_of_absent (d := d.tick) hc ctx c.ID c.Cid c.UserID true hex
      obtain ⟨d1, created, fresh, hrun, hpins, hsub, hnd, hfresh, hcov, hrel, hmgr, hobj, href,
        hout, hdet, hblk⟩ := ih (pinMgrAdd (d.tick.tick.tick.insertPin (freshPin c.ID c.Cid c.UserID))
          (queuedOp c.ID c.Cid c.UserID true)) hc
      have hpins2 : (pinMgrAdd (d.tick.tick.tick.insertPin (freshPin c.ID c.Cid c.UserID))
          (queuedOp c.ID c.Cid c.UserID true)).DB.pins = d.DB.pins ++
            [{ freshPin c.ID c.Cid c.UserID with ID := nextID (d.DB.pins.map (fun p => p.ID)) }] :=
        rfl
      rw [hpins2] at hpins hfresh hcov
      have hsplit : ∀ x : Nat, pinsWithContent (d.DB.pins ++
          [{ freshPin c.ID c.Cid c.UserID with ID := nextID (d.DB.pins.map (fun p => p.ID)) }]) x
            = [] ↔ (pinsWithContent d.DB.pins x = [] ∧ x ≠ c.ID) := by
        intro x
        rw [pinsWithContent_append]
        simp only [List.append_eq_nil, pinsWithContent, freshPin]
        constructor
        · rintro ⟨h1, h2⟩
          refine ⟨h1, fun hx => ?_⟩
          simp [hx] at h2
        · rintro ⟨h1, h2⟩
          exact ⟨h1, by simp [Ne.symm h2]⟩
      refine ⟨d1, ({ freshPin c.ID c.Cid c.UserID with
          ID := nextID (d.DB.pins.map (fun p => p.ID)) } : Pin) :: created, c :: fresh,
        ?_, ?_, hsub.cons₂ c, ?_, ?_, ?_, ?_, ?_, hobj, href, hout, hdet, hblk⟩
      · simp only [takeContentLoop, dbCountPins_of_calm hc, hex, List.length_nil]
        simp only [Nat.cast_zero, gt_iff_lt, lt_self_iff_false, if_false, hadd]
        exact hrun
      · rw [hpins]; simp
      · simp only [List.map_cons, List.nodup_cons]
        refine ⟨fun hmem => ?_, hnd⟩
        obtain ⟨x, hx, hxid⟩ := List.mem_map.1 hmem
        exact ((hsplit x.ID).1 (hfresh x hx)).2 hxid
      · intro x hx
        rcases List.mem_cons.1 hx with rfl | hx
        · exact hex
        · exact ((hsplit x.ID).1 (hfresh x hx)).1
      · intro x hx hnone
        by_cases hid : x.ID = c.ID
        · simp [hid]
        · rcases List.mem_cons.1 hx with rfl | hx
          · exact absurd rfl hid
          · exact List.mem_cons_of_mem _ (hcov x hx ((hsplit x.ID).2 ⟨hnone, hid⟩))
      · exact List.Forall₂.cons ⟨rfl, rfl, rfl, rfl, rfl, rfl, rfl, rfl⟩ hrel
      · rw [hmgr]; simp [pinMgrAdd, Shuttle.insertPin]
    · -- a Pin exists already: the entry is skipped
      obtain ⟨d1, created, fresh, hrun, hpins, hsub, hnd, hfresh, hcov, hrel, hmgr, hobj, href,
        hout, hdet, hblk⟩ := ih d.tick hc
      have hpos : (0 : Int) < ((pinsWithContent d.DB.pins c.ID).length : Int) := by
        have : 0 < (pinsWithContent d.DB.pins c.ID).length := List.length_pos.2 hex
        exact_mod_cast this
      refine ⟨d1, created, fresh, ?_, hpins, hsub.cons c, hnd, hfresh, ?_, hrel, hmgr, hobj,
        href, hout, hdet, hblk⟩
      · simp only [takeContentLoop, dbCountPins_of_calm hc, gt_iff_lt, hpos, if_true]
        exact hrun
      · intro x hx hnone
        rcases List.mem_cons.1 hx with rfl | hx
        · exact absurd hnone hex
        · exact hcov x hx hnone

/-- C10: with every store call succeeding, handleRpcTakeContent returns
success and appends to the pins table exactly one new row (Pinning, neither
Active nor Failed) for each entry of a sublist of the content list whose ids
are pairwise distinct, had no Pin row before the call, and cover every listed
id that had none; so each such id gets one row however often it is listed and
ids that already had a row get none.  Existing rows, objects, references,
outbound channel and block store are unchanged, and the pin manager receives
exactly one operation with SkipLimiter = true per new row, in the same order. -/
theorem takeContent_bulk_admission (d : Shuttle) (ctx : Ctx) (cmd : TakeContent)
    (hcalm : d.calm) :
    ∃ d1 created fresh, handleRpcTakeContent d ctx cmd = (none, d1) ∧
      d1.DB.pins = d.DB.pins ++ created ∧
      List.Sublist fresh cmd.Contents ∧
      (fresh.map (fun c => c.ID)).Nodup ∧
      (∀ c ∈ fresh, pinsWithContent d.DB.pins c.ID = []) ∧
      (∀ c ∈ cmd.Contents, pinsWithContent d.DB.pins c.ID = [] →
        c.ID ∈ fresh.map (fun c => c.ID)) ∧
      List.Forall₂ AdmittedFor created fresh ∧
      d1.PinMgr = d.PinMgr ++
        fresh.map (fun c => { Obj := c.Cid, ContId := c.ID, UserId := c.UserID,
                              Status := "queued", SkipLimiter := true }) ∧
      d1.DB.objects = d.DB.objects ∧ d1.DB.objRefs = d.DB.objRefs ∧
      d1.outgoing = d.outgoing ∧ d1.detached = d.detached ∧
      d1.blockstore = d.blockstore :=
  takeContentLoop_bulk ctx cmd.Contents d hcalm

theorem takeContent_bulk_admission_witness :
    ∃ d1 created fresh, handleRpcTakeContent twoPinsShuttle Ctx.TODO mixedTakeContent =
        (none, d1) ∧
      d1.DB.pins = twoPinsShuttle.DB.pins ++ created ∧
      List.Sublist fresh mixedTakeContent.Contents ∧
      (fresh.map (fun c => c.ID)).Nodup ∧
      (∀ c ∈ fresh, pinsWithContent twoPinsShuttle.DB.pins c.ID = []) ∧
      (∀ c ∈ mixedTakeContent.Contents, pinsWithContent twoPinsShuttle.DB.pins c.ID = [] →
        c.ID ∈ fresh.map (fun c => c.ID)) ∧
      List.Forall₂ AdmittedFor created fresh ∧
      d1.PinMgr = twoPinsShuttle.PinMgr ++
        fresh.map (fun c => { Obj := c.Cid, ContId := c.ID, UserId := c.UserID,
                              Status := "queued", SkipLimiter := true }) ∧
      d1.DB.objects = twoPinsShuttle.DB.objects ∧ d1.DB.objRefs = twoPinsShuttle.DB.objRefs ∧
      d1.outgoing = twoPinsShuttle.outgoing ∧ d1.detached = twoPinsShuttle.detached ∧
      d1.blockstore = twoPinsShuttle.blockstore :=
  takeContent_bulk_admission twoPinsShuttle Ctx.TODO mixedTakeContent (fun _ => rfl)

/-- The example of the specification: three new and two already-pinned content
ids give exactly three new Pin rows and three queued operations, the entry
listed twice being admitted once. -/
theorem takeContent_example_3_2 :
    (handleRpcTakeContent twoPinsShuttle Ctx.TODO mixedTakeContent).1 = none ∧
    (handleRpcTakeContent twoPinsShuttle Ctx.TODO mixedTakeContent).2.DB.pins =
      twoPinsShuttle.DB.pins ++
        [{ ID := 3, Content := 3, Cid := ⟨"bafy3"⟩, UserID := 7, Pinning := true },
         { ID := 4, Content := 4, Cid := ⟨"bafy4"⟩, UserID := 7, Pinning := true },
         { ID := 5, Content := 5, Cid := ⟨"bafy5"⟩, UserID := 7, Pinning := true }] ∧
    (handleRpcTakeContent twoPinsShuttle Ctx.TODO mixedTakeContent).2.PinMgr =
      [queuedOp 3 ⟨"bafy3"⟩ 7 true, queuedOp 4 ⟨"bafy4"⟩ 7 true, queuedOp 5 ⟨"bafy5"⟩ 7 true] := by
  decide

/-- C6 fails on handleRpcAggregateContent: from a store in which no Pin is
Active and Pinning at once, a successful AggregateContent command leaves its
new Pin both Active and Pinning. -/
theorem aggregate_leaves_active_and_pinning :
    NoActivePinning twoPinsShuttle.DB.pins ∧
    ∃ d1, handleRpcAggregateContent twoPinsShuttle Ctx.TODO
        ⟨9, 3, [1, 2], ⟨"root"⟩, List.replicate 50 0⟩ = (none, d1) ∧
      (∃ p ∈ d1.DB.pins, p.Content = 9 ∧ p.Active = true ∧ p.Pinning = true) ∧
      ¬ NoActivePinning d1.DB.pins := by
  refine ⟨by unfold NoActivePinning; decide, ?_⟩
  obtain ⟨d1, h1, hp, _⟩ := aggregate_of_complete Ctx.TODO
    ⟨9, 3, [1, 2], ⟨"root"⟩, List.replicate 50 0⟩ (fun _ => rfl)
    (show pinsWithContent twoPinsShuttle.DB.pins 9 = [] by decide) (by decide)
  have hmem : ∃ p ∈ d1.DB.pins, p.Content = 9 ∧ p.Active = true ∧ p.Pinning = true := by
    rw [hp]
    exact ⟨_, List.mem_append_right _ (List.mem_singleton_self _), rfl, rfl, rfl⟩
  refine ⟨d1, h1, hmem, fun hinv => ?_⟩
  obtain ⟨p, hpm, _, ha, hpin⟩ := hmem
  exact hinv p hpm ⟨ha, hpin⟩

theorem nextID_not_mem (ids : List Nat) : nextID ids ∉ ids := fun h =>
  Nat.lt_irrefl _ (lt_nextID ids _ h)

/-- With distinct primary keys, addPin never makes a Pin both Active and
Pinning, whatever fails. -/
theorem addPin_keeps_active_pinning_apart (d : Shuttle) (ctx : Ctx) (c : Nat) (data : Cid)
    (user : Nat) (skip : Bool)
    (h : KeysDistinct d.DB.pins ∧ NoActivePinning d.DB.pins) :
    KeysDistinct (addPin d ctx c data user skip).2.DB.pins ∧
      NoActivePinning (addPin d ctx c data user skip).2.DB.pins := by
  obtain ⟨hk, hinv⟩ := h
  rcases addPin_effect d ctx c data user skip with e | ⟨p, rest, hs, ha, _, _, e⟩ | ⟨_, e⟩
  · rw [e]; exact ⟨hk, hinv⟩
  · rw [e]
    have hp : p ∈ d.DB.pins := by
      have : p ∈ pinsWithContent d.DB.pins c := by rw [hs]; exact List.mem_cons_self _ _
      exact (List.mem_filter.1 this).1
    constructor
    · have hid : (d.setPinning p.ID true).DB.pins.map (fun q => q.ID) =
          d.DB.pins.map (fun q => q.ID) := by
        simp only [Shuttle.setPinning, List.map_map]
        apply List.map_congr_left
        intro q _
        by_cases hq : q.ID = p.ID <;> simp [hq]
      unfold KeysDistinct
      rw [hid]
      exact hk
    · intro q1 hq1
      simp only [Shuttle.setPinning, List.mem_map] at hq1
      obtain ⟨q, hq, rfl⟩ := hq1
      by_cases hid : q.ID = p.ID
      · have hqp : q = p := List.inj_on_of_nodup_map hk hq hp hid
        subst hqp
        simp [ha]
      · simp only [hid, if_false]
        exact hinv q hq
  · rw [e, pins_insertPin]
    constructor
    · unfold KeysDistinct
      simp only [List.map_append, List.map_cons, List.map_nil]
      refine List.Nodup.append hk (List.nodup_singleton _) ?_
      intro x hx hx1
      rw [List.mem_singleton.1 hx1] at hx
      exact nextID_not_mem _ hx
    · intro q hq
      rcases List.mem_append.1 hq with hq | hq
      · exact hinv q hq
      · rw [List.mem_singleton.1 hq]
        simp [freshPin]

/-- With distinct primary keys, AddPin and TakeContent commands never make a
Pin both Active and Pinning, whatever fails: of the three pin commands only
AggregateContent does. -/
theorem addPin_takeContent_keep_active_pinning_apart (d : Shuttle) (ctx : Ctx)
    (hk : KeysDistinct d.DB.pins) (hinv : NoActivePinning d.DB.pins) :
    (∀ apo : AddPin, NoActivePinning (handleRpcAddPin d ctx apo).2.DB.pins) ∧
    (∀ cmd : TakeContent, NoActivePinning (handleRpcTakeContent d ctx cmd).2.DB.pins) :=
  ⟨fun _ => (addPin_keeps_active_pinning_apart d ctx _ _ _ _ ⟨hk, hinv⟩).2,
   fun cmd => (takeContentLoop_preserves (fun pins => KeysDistinct pins ∧ NoActivePinning pins)
      addPin_keeps_active_pinning_apart ctx cmd.Contents d ⟨hk, hinv⟩).2⟩

/-- The row a First lookup returns is a row of the table with the content id
asked for. -/
theorem leastID_mem (l : List Pin) (p : Pin) (h : leastID l = some p) : p ∈ l := by
  induction l generalizing p with
  | nil => simp [leastID] at h
  | cons a as ih =>
    simp only [leastID] at h
    cases hq : leastID as with
    | none =>
      simp only [hq, Option.some.injEq] at h
      rw [← h]
      exact List.mem_cons_self _ _
    | some q =>
      simp only [hq] at h
      by_cases hlt : q.ID < a.ID
      · simp only [hlt, if_true, Option.some.injEq] at h
        rw [← h]
        exact List.mem_cons_of_mem _ (ih q hq)
      · simp only [hlt, if_false, Option.some.injEq] at h
        rw [← h]
        exact List.mem_cons_self _ _

theorem pinFor_mem (pins : List Pin) (c : Nat) (p : Pin) (h : pinFor pins c = some p) :
    p ∈ pins ∧ p.Content = c := by
  have := List.mem_filter.1 (leastID_mem _ p h)
  exact ⟨this.1, by simpa using this.2⟩

/-- With at most one Pin row per content id, the First lookup for the content
id of a row returns that row: the Pin of a content id is unambiguous. -/
theorem pinFor_of_unique (pins : List Pin) (hu : UniqueContent pins) (p : Pin) (hp : p ∈ pins) :
    pinFor pins p.Content = some p := by
  have hmem : p ∈ pinsWithContent pins p.Content := List.mem_filter.2 ⟨hp, by simp⟩
  have hlen := hu p.Content
  cases hl : pinsWithContent pins p.Content with
  | nil => rw [hl] at hmem; simp at hmem
  | cons a as =>
    rw [hl] at hmem hlen
    cases as with
    | nil =>
      have : p = a := by simpa using hmem
      subst this
      simp [pinFor, hl, leastID]
    | cons b bs => simp at hlen

/-- The consequence of the Pin left Active and Pinning by AggregateContent: a
repeated AddPin for the aggregate's content id does not resend the completion
message; it hands the finished aggregate to the pin manager as new work. -/
theorem addPin_after_aggregate_requeues :
    ∃ d1, handleRpcAggregateContent twoPinsShuttle Ctx.TODO
        ⟨9, 3, [1, 2], ⟨"root"⟩, List.replicate 50 0⟩ = (none, d1) ∧
      ∃ d2, addPin d1 Ctx.TODO 9 ⟨"root"⟩ 3 false = (none, d2) ∧
        d2.detached = d1.detached ∧ d2.outgoing = d1.outgoing ∧
        d2.PinMgr = d1.PinMgr ++ [queuedOp 9 ⟨"root"⟩ 3 false] := by
  obtain ⟨d1, h1, hp, _, _, _, _, _, _, hcalm⟩ := aggregate_of_complete Ctx.TODO
    ⟨9, 3, [1, 2], ⟨"root"⟩, List.replicate 50 0⟩ (fun _ => rfl)
    (show pinsWithContent twoPinsShuttle.DB.pins 9 = [] by decide) (by decide)
  have hs : pinsWithContent d1.DB.pins 9 =
      [{ ID := nextID (twoPinsShuttle.DB.pins.map (fun p => p.ID)), Content := 9,
         Cid := ⟨"root"⟩, UserID := 3,
         Size := wrapInt64 (((List.replicate 50 (0 : UInt8)).length : Int) +
           ([1, 2].map (constituentSize twoPinsShuttle.DB.pins)).sum),
         Active := true, Failed := false, Pinning := true, Aggregate := true }] := by
    rw [hp]
    decide
  refine ⟨d1, h1, _, addPin_of_pinning hcalm Ctx.TODO 9 ⟨"root"⟩ 3 false _ _ hs rfl rfl,
    rfl, rfl, rfl⟩

/-! ### Dispatch, compute and transfer handlers -/

/-- C11: handleRpcCmd on a Command whose Op is none of the six recognised tags
returns the unrecognized-operation error and leaves the whole shuttle state
as it was; on a Command whose Op is one of the six tags and whose matching
parameter variant is populated, its result and effect are those of the one
handler named by the tag, applied to that variant under context.TODO(). -/
theorem handleRpcCmd_dispatch (d : Shuttle) (cmd : Command) :
    (cmd.Op ∉ knownOps → handleRpcCmd d cmd = (some (.unrecognizedOp cmd.Op), d)) ∧
    (∀ v, cmd.Op = "AddPin" → cmd.Params.AddPin = some v →
      handleRpcCmd d cmd = handleRpcAddPin d Ctx.TODO v) ∧
    (∀ v, cmd.Op = "ComputeCommP" → cmd.Params.ComputeCommP = some v →
      handleRpcCmd d cmd = handleRpcComputeCommP d Ctx.TODO v) ∧
    (∀ v, cmd.Op = "TakeContent" → cmd.Params.TakeContent = some v →
      handleRpcCmd d cmd = handleRpcTakeContent d Ctx.TODO v) ∧
    (∀ v, cmd.Op = "AggregateContent" → cmd.Params.AggregateContent = some v →
      handleRpcCmd d cmd = handleRpcAggregateContent d Ctx.TODO v) ∧
    (∀ v, cmd.Op = "StartTransfer" → cmd.Params.StartTransfer = some v →
      handleRpcCmd d cmd = handleRpcStartTransfer d Ctx.TODO v) ∧
    (∀ v, cmd.Op = "ReqTxStatus" → cmd.Params.ReqTxStatus = some v →
      handleRpcCmd d cmd = handleRpcReqTxStatus d Ctx.TODO v) := by
  refine ⟨?_, ?_, ?_, ?_, ?_, ?_, ?_⟩
  · intro h
    simp only [knownOps, List.mem_cons, List.mem_singleton, List.not_mem_nil, or_false,
      not_or] at h
    obtain ⟨h1, h2, h3, h4, h5, h6⟩ := h
    simp [handleRpcCmd, h1, h2, h3, h4, h5, h6]
  · intro v hop hv
    simp [handleRpcCmd, hop, hv, CMD_AddPin]
  · intro v hop hv
    simp [handleRpcCmd, hop, hv, CMD_AddPin, CMD_ComputeCommP]
  · intro v hop hv
    simp [handleRpcCmd, hop, hv, CMD_AddPin, CMD_ComputeCommP, CMD_TakeContent]
  · intro v hop hv
    simp [handleRpcCmd, hop, hv, CMD_AddPin, CMD_ComputeCommP, CMD_TakeContent,
      CMD_AggregateContent]
  · intro v hop hv
    simp [handleRpcCmd, hop, hv, CMD_AddPin, CMD_ComputeCommP, CMD_TakeContent,
      CMD_AggregateContent, CMD_StartTransfer]
  · intro v hop hv
    simp [handleRpcCmd, hop, hv, CMD_AddPin, CMD_ComputeCommP, CMD_TakeContent,
      CMD_AggregateContent, CMD_StartTransfer, CMD_ReqTxStatus]

theorem handleRpcCmd_dispatch_witness :
    handleRpcCmd pinningShuttle ⟨"DropPin", { AddPin := some ⟨7, 3, ⟨"bafy7"⟩⟩ }⟩ =
      (some (.unrecognizedOp "DropPin"), pinningShuttle) ∧
    handleRpcCmd pinningShuttle ⟨"TakeContent", { TakeContent := some mixedTakeContent }⟩ =
      handleRpcTakeContent pinningShuttle Ctx.TODO mixedTakeContent ∧
    handleRpcCmd pinningShuttle
        ⟨"ReqTxStatus", { ReqTxStatus := some ⟨11, exampleChannel⟩ }⟩ =
      handleRpcReqTxStatus pinningShuttle Ctx.TODO ⟨11, exampleChannel⟩ :=
  ⟨(handleRpcCmd_dispatch pinningShuttle
      ⟨"DropPin", { AddPin := some ⟨7, 3, ⟨"bafy7"⟩⟩ }⟩).1 (by decide),
   (handleRpcCmd_dispatch pinningShuttle
      ⟨"TakeContent", { TakeContent := some mixedTakeContent }⟩).2.2.2.1 _ rfl rfl,
   (handleRpcCmd_dispatch pinningShuttle
      ⟨"ReqTxStatus", { ReqTxStatus := some ⟨11, exampleChannel⟩ }⟩).2.2.2.2.2.2 _ rfl rfl⟩

/-- C16: handleRpcComputeCommP asks the memoizer for the string form of the
command's data identifier and, (i) when that fails, returns the error wrapping
the failure and emits nothing; (ii) when that yields a value that is not a
commpResult, returns the wrong-type error, which differs from every
computation-failure error, and emits nothing; (iii) when that yields a
commpResult r, returns success having delivered exactly one CommPComplete
message carrying the data identifier, r.CommP and r.Size (the context not
being cancelled). -/
theorem computeCommP_outcomes (d : Shuttle) (ctx : Ctx) (cmd : ComputeCommP) :
    (∀ e, d.commpMemo d.calls cmd.Data.str = .error e →
      ∃ d1, handleRpcComputeCommP d ctx cmd = (some (.commpFailed cmd.Data e), d1) ∧
        d1.outgoing = d.outgoing ∧ d1.detached = d.detached) ∧
    (∀ t, d.commpMemo d.calls cmd.Data.str = .ok (.other t) →
      ∃ d1, handleRpcComputeCommP d ctx cmd = (some (.commpWrongType t), d1) ∧
        d1.outgoing = d.outgoing ∧ d1.detached = d.detached ∧
        ∀ data e, Err.commpWrongType t ≠ Err.commpFailed data e) ∧
    (∀ r, d.commpMemo d.calls cmd.Data.str = .ok (.commp r) → ctx.done = false →
      ∃ d1, handleRpcComputeCommP d ctx cmd = (none, d1) ∧
        d1.detached = d.detached ∧
        d1.outgoing = d.outgoing ++
          [{ Op := "CommPComplete",
             Params := { CommPComplete := some { Data := cmd.Data, CommP := r.CommP,
                                                 Size := r.Size } } }]) := by
  refine ⟨?_, ?_, ?_⟩
  · intro e h
    exact ⟨d.tick, by simp [handleRpcComputeCommP, h], rfl, rfl⟩
  · intro t h
    exact ⟨d.tick, by simp [handleRpcComputeCommP, h], rfl, rfl, fun _ _ hne => by cases hne⟩
  · intro r h hctx
    simp [handleRpcComputeCommP, h, sendRpcMessage, hctx, OP_CommPComplete]

theorem computeCommP_outcomes_witness :
    (∃ d1, handleRpcComputeCommP commpShuttle Ctx.TODO ⟨⟨"bafy8"⟩⟩ =
        (some (.commpFailed ⟨"bafy8"⟩ "not found"), d1) ∧
      d1.outgoing = commpShuttle.outgoing ∧ d1.detached = commpShuttle.detached) ∧
    (∃ d1, handleRpcComputeCommP commpShuttle Ctx.TODO ⟨⟨"bafy7"⟩⟩ = (none, d1) ∧
      d1.detached = commpShuttle.detached ∧
      d1.outgoing = commpShuttle.outgoing ++
        [{ Op := "CommPComplete",
           Params := { CommPComplete := some { Data := ⟨"bafy7"⟩, CommP := ⟨"baga7"⟩,
                                               Size := 127 } } }]) :=
  ⟨(computeCommP_outcomes commpShuttle Ctx.TODO ⟨⟨"bafy8"⟩⟩).1 "not found"
      (by simp [commpShuttle]),
   (computeCommP_outcomes commpShuttle Ctx.TODO ⟨⟨"bafy7"⟩⟩).2.2
      { CommP := ⟨"baga7"⟩, Size := 127 } (by simp [commpShuttle]) rfl⟩

/-- C13: for a ReqTxStatus request and any two shuttle states, whatever their
trackers hold, in which the external status query succeeds with the same
state: the handler returns nil in both, sends nothing itself, leaves the
tracker unchanged and spawns one goroutine; that goroutine, once run, delivers
in both runs the same single TransferStatus message, whose DealDBID is the
request's, whose Chanid is the string form of the request's channel id and
whose State is the queried state, and leaves the tracker unchanged. -/
theorem reqTxStatus_ignores_tracker (d1 d2 : Shuttle) (ctx1 ctx2 : Ctx) (req : ReqTxStatus)
    (st : Option ChannelState)
    (h1 : d1.Filc.TransferStatus d1.calls req.ChanID = .ok st)
    (h2 : d2.Filc.TransferStatus d2.calls req.ChanID = .ok st) :
    ∃ msg : Message,
      msg = { Op := "TransferStatus",
              Params := { TransferStatus := some { Chanid := req.ChanID.String,
                                                   DealDBID := req.DealDBID, State := st,
                                                   Failed := false, Message := "" } } } ∧
      (∃ e1, handleRpcReqTxStatus d1 ctx1 req = (none, e1) ∧
        e1.outgoing = d1.outgoing ∧ e1.trackingChannels = d1.trackingChannels ∧
        e1.detached = d1.detached ++ [Goroutine.reqTxStatus req] ∧
        (runGoroutine e1 (.reqTxStatus req)).outgoing = d1.outgoing ++ [msg] ∧
        (runGoroutine e1 (.reqTxStatus req)).trackingChannels = d1.trackingChannels) ∧
      (∃ e2, handleRpcReqTxStatus d2 ctx2 req = (none, e2) ∧
        e2.outgoing = d2.outgoing ∧ e2.trackingChannels = d2.trackingChannels ∧
        e2.detached = d2.detached ++ [Goroutine.reqTxStatus req] ∧
        (runGoroutine e2 (.reqTxStatus req)).outgoing = d2.outgoing ++ [msg] ∧
        (runGoroutine e2 (.reqTxStatus req)).trackingChannels = d2.trackingChannels) := by
  refine ⟨_, rfl, ⟨spawn d1 (.reqTxStatus req), rfl, rfl, rfl, rfl, ?_, ?_⟩,
    ⟨spawn d2 (.reqTxStatus req), rfl, rfl, rfl, rfl, ?_, ?_⟩⟩
  · simp [runGoroutine, spawn, h1, sendTransferStatusUpdate, sendRpcMessage, Ctx.TODO,
      OP_TransferStatus, Shuttle.tick]
  · simp [runGoroutine, spawn, h1, sendTransferStatusUpdate, sendRpcMessage, Ctx.TODO,
      Shuttle.tick]
  · simp [runGoroutine, spawn, h2, sendTransferStatusUpdate, sendRpcMessage, Ctx.TODO,
      OP_TransferStatus, Shuttle.tick]
  · simp [runGoroutine, spawn, h2, sendTransferStatusUpdate, sendRpcMessage, Ctx.TODO,
      Shuttle.tick]

theorem reqTxStatus_ignores_tracker_witness :
    ∃ msg : Message,
      msg = { Op := "TransferStatus",
              Params := { TransferStatus := some { Chanid := exampleChannel.String,
                                                   DealDBID := 11,
                                                   State := some { Status := 6,
                                                                   Message := "ongoing" },
                                                   Failed := false, Message := "" } } } ∧
      (∃ e1, handleRpcReqTxStatus transferShuttle Ctx.TODO ⟨11, exampleChannel⟩ = (none, e1) ∧
        e1.outgoing = transferShuttle.outgoing ∧
        e1.trackingChannels = transferShuttle.trackingChannels ∧
        e1.detached = transferShuttle.detached ++ [Goroutine.reqTxStatus ⟨11, exampleChannel⟩] ∧
        (runGoroutine e1 (.reqTxStatus ⟨11, exampleChannel⟩)).outgoing =
          transferShuttle.outgoing ++ [msg] ∧
        (runGoroutine e1 (.reqTxStatus ⟨11, exampleChannel⟩)).trackingChannels =
          transferShuttle.trackingChannels) ∧
      (∃ e2, handleRpcReqTxStatus untrackedShuttle Ctx.TODO ⟨11, exampleChannel⟩ = (none, e2) ∧
        e2.outgoing = untrackedShuttle.outgoing ∧
        e2.trackingChannels = untrackedShuttle.trackingChannels ∧
        e2.detached = untrackedShuttle.detached ++ [Goroutine.reqTxStatus ⟨11, exampleChannel⟩] ∧
        (runGoroutine e2 (.reqTxStatus ⟨11, exampleChannel⟩)).outgoing =
          untrackedShuttle.outgoing ++ [msg] ∧
        (runGoroutine e2 (.reqTxStatus ⟨11, exampleChannel⟩)).trackingChannels =
          untrackedShuttle.trackingChannels) :=
  reqTxStatus_ignores_tracker transferShuttle untrackedShuttle Ctx.TODO Ctx.TODO
    ⟨11, exampleChannel⟩ (some { Status := 6, Message := "ongoing" }) rfl rfl

/-- The tracker of transferShuttle maps the string form of exampleChannel to
deal 5, not to the deal 11 the status request of the example names. -/
theorem transferShuttle_tracks_exampleChannel :
    transferShuttle.trackingChannels exampleChannel.String = some { dbid := 5 } ∧
    untrackedShuttle.trackingChannels exampleChannel.String = none := by
  decide

/-- C14: handleRpcStartTransfer returns nil at once, whatever the transfer
client will answer, having sent nothing, left the tracker alone and spawned one
goroutine.  Once that goroutine runs (context not cancelled): if the transfer
client starts the transfer on channel ch, the tracker maps the string form of
ch to the command's DealDBID, every other tracker entry is as before, and
exactly one TransferStarted message with that DealDBID and that string form is
delivered; if the transfer client fails with an error of text e, the tracker
is as before and exactly one TransferStatus message is delivered, with the
command's DealDBID, Failed = true and the Message "failed to start data
transfer: " followed by e. -/
theorem startTransfer_outcome (d : Shuttle) (ctx : Ctx) (cmd : StartTransfer)
    (hctx : ctx.done = false) :
    ∃ d1, handleRpcStartTransfer d ctx cmd = (none, d1) ∧
      d1.outgoing = d.outgoing ∧ d1.trackingChannels = d.trackingChannels ∧
      d1.detached = d.detached ++ [Goroutine.startTransfer ctx cmd] ∧
      (∀ ch, d.Filc.StartDataTransfer d.calls cmd.Miner cmd.PropCid cmd.DataCid = .ok ch →
        (runGoroutine d1 (.startTransfer ctx cmd)).trackingChannels ch.String =
          some { dbid := cmd.DealDBID } ∧
        (∀ k, k ≠ ch.String →
          (runGoroutine d1 (.startTransfer ctx cmd)).trackingChannels k =
            d.trackingChannels k) ∧
        (runGoroutine d1 (.startTransfer ctx cmd)).outgoing = d.outgoing ++
          [{ Op := "TransferStarted",
             Params := { TransferStarted := some { DealDBID := cmd.DealDBID,
                                                   Chanid := ch.String } } }]) ∧
      (∀ e, d.Filc.StartDataTransfer d.calls cmd.Miner cmd.PropCid cmd.DataCid = .error e →
        (runGoroutine d1 (.startTransfer ctx cmd)).trackingChannels = d.trackingChannels ∧
        (runGoroutine d1 (.startTransfer ctx cmd)).outgoing = d.outgoing ++
          [{ Op := "TransferStatus",
             Params := { TransferStatus := some { Chanid := "", DealDBID := cmd.DealDBID,
                                                  State := none, Failed := true,
                                                  Message := "failed to start data transfer: " ++ e } } }]) := by
  refine ⟨spawn d (.startTransfer ctx cmd), rfl, rfl, rfl, rfl, ?_, ?_⟩
  · intro ch h
    refine ⟨?_, ?_, ?_⟩
    · simp [runGoroutine, spawn, h, trackTransfer, sendRpcMessage, hctx, Shuttle.tick]
    · intro k hk
      simp [runGoroutine, spawn, h, trackTransfer, sendRpcMessage, hctx, Shuttle.tick, hk]
    · simp [runGoroutine, spawn, h, trackTransfer, sendRpcMessage, hctx, Shuttle.tick,
        OP_TransferStarted]
  · intro e h
    refine ⟨?_, ?_⟩
    · simp [runGoroutine, spawn, h, sendTransferStatusUpdate, sendRpcMessage, hctx,
        Shuttle.tick]
    · simp [runGoroutine, spawn, h, sendTransferStatusUpdate, sendRpcMessage, hctx,
        Shuttle.tick, OP_TransferStatus]

theorem startTransfer_outcome_witness :
    ∃ d1, handleRpcStartTransfer refusingShuttle Ctx.TODO
        ⟨11, 7, ⟨"f01234"⟩, ⟨"prop"⟩, ⟨"bafy7"⟩⟩ = (none, d1) ∧
      d1.outgoing = refusingShuttle.outgoing ∧
      d1.trackingChannels = refusingShuttle.trackingChannels ∧
      d1.detached = refusingShuttle.detached ++
        [Goroutine.startTransfer Ctx.TODO ⟨11, 7, ⟨"f01234"⟩, ⟨"prop"⟩, ⟨"bafy7"⟩⟩] ∧
      (∀ ch, refusingShuttle.Filc.StartDataTransfer refusingShuttle.calls
          (⟨11, 7, ⟨"f01234"⟩, ⟨"prop"⟩, ⟨"bafy7"⟩⟩ : StartTransfer).Miner ⟨"prop"⟩ ⟨"bafy7"⟩ =
            .ok ch →
        (runGoroutine d1 (.startTransfer Ctx.TODO
            ⟨11, 7, ⟨"f01234"⟩, ⟨"prop"⟩, ⟨"bafy7"⟩⟩)).trackingChannels ch.String =
          some { dbid := 11 } ∧
        (∀ k, k ≠ ch.String →
          (runGoroutine d1 (.startTransfer Ctx.TODO
              ⟨11, 7, ⟨"f01234"⟩, ⟨"prop"⟩, ⟨"bafy7"⟩⟩)).trackingChannels k =
            refusingShuttle.trackingChannels k) ∧
        (runGoroutine d1 (.startTransfer Ctx.TODO
            ⟨11, 7, ⟨"f01234"⟩, ⟨"prop"⟩, ⟨"bafy7"⟩⟩)).outgoing = refusingShuttle.outgoing ++
          [{ Op := "TransferStarted",
             Params := { TransferStarted := some { DealDBID := 11,
                                                   Chanid := ch.String } } }]) ∧
      (∀ e, refusingShuttle.Filc.StartDataTransfer refusingShuttle.calls
          (⟨11, 7, ⟨"f01234"⟩, ⟨"prop"⟩, ⟨"bafy7"⟩⟩ : StartTransfer).Miner ⟨"prop"⟩ ⟨"bafy7"⟩ =
            .error e →
        (runGoroutine d1 (.startTransfer Ctx.TODO
            ⟨11, 7, ⟨"f01234"⟩, ⟨"prop"⟩, ⟨"bafy7"⟩⟩)).trackingChannels =
          refusingShuttle.trackingChannels ∧
        (runGoroutine d1 (.startTransfer Ctx.TODO
            ⟨11, 7, ⟨"f01234"⟩, ⟨"prop"⟩, ⟨"bafy7"⟩⟩)).outgoing = refusingShuttle.outgoing ++
          [{ Op := "TransferStatus",
             Params := { TransferStatus := some { Chanid := "", DealDBID := 11,
                                                  State := none, Failed := true,
                                                  Message := "failed to start data transfer: " ++ e } } }]) :=
  startTransfer_outcome refusingShuttle Ctx.TODO ⟨11, 7, ⟨"f01234"⟩, ⟨"prop"⟩, ⟨"bafy7"⟩⟩ rfl

/-- The two outcomes of a StartTransfer command evaluated: on transferShuttle
the transfer starts on exampleChannel, the tracker entry of that channel
becomes deal 11 and one TransferStarted message is delivered; on
refusingShuttle the tracker keeps deal 5 and one failed TransferStatus message
carries the error text. -/
theorem startTransfer_examples :
    (runGoroutine (handleRpcStartTransfer transferShuttle Ctx.TODO
        ⟨11, 7, ⟨"f01234"⟩, ⟨"prop"⟩, ⟨"bafy7"⟩⟩).2
      (.startTransfer Ctx.TODO ⟨11, 7, ⟨"f01234"⟩, ⟨"prop"⟩, ⟨"bafy7"⟩⟩)).trackingChannels
        "peerA-peerB-42" = some { dbid := 11 } ∧
    (runGoroutine (handleRpcStartTransfer transferShuttle Ctx.TODO
        ⟨11, 7, ⟨"f01234"⟩, ⟨"prop"⟩, ⟨"bafy7"⟩⟩).2
      (.startTransfer Ctx.TODO ⟨11, 7, ⟨"f01234"⟩, ⟨"prop"⟩, ⟨"bafy7"⟩⟩)).outgoing =
        [{ Op := "TransferStarted",
           Params := { TransferStarted := some { DealDBID := 11,
                                                 Chanid := "peerA-peerB-42" } } }] ∧
    (runGoroutine (handleRpcStartTransfer refusingShuttle Ctx.TODO
        ⟨11, 7, ⟨"f01234"⟩, ⟨"prop"⟩, ⟨"bafy7"⟩⟩).2
      (.startTransfer Ctx.TODO ⟨11, 7, ⟨"f01234"⟩, ⟨"prop"⟩, ⟨"bafy7"⟩⟩)).trackingChannels
        "peerA-peerB-42" = some { dbid := 5 } ∧
    (runGoroutine (handleRpcStartTransfer refusingShuttle Ctx.TODO
        ⟨11, 7, ⟨"f01234"⟩, ⟨"prop"⟩, ⟨"bafy7"⟩⟩).2
      (.startTransfer Ctx.TODO ⟨11, 7, ⟨"f01234"⟩, ⟨"prop"⟩, ⟨"bafy7"⟩⟩)).outgoing =
        [{ Op := "TransferStatus",
           Params := { TransferStatus := some { Chanid := "", DealDBID := 11,
                                                  State := none, Failed := true,
                                                  Message := "failed to start data transfer: no route to miner" } } }] := by
  decide

/-! ### Aggregation: what a successful run has done -/

theorem newBlockWithCid_inv_ok {d d1 : Shuttle} {data : List UInt8} {c : Cid} {blk : Block}
    (h : newBlockWithCid d data c = (.ok blk, d1)) :
    blk = { data := data, cid := c } ∧ d1 = d.tick := by
  cases hf : d.failing d.calls <;> simp [newBlockWithCid, Shuttle.attempt, hf] at h
  exact ⟨h.1.symm, h.2.symm⟩

theorem blockstorePut_inv_ok {d d1 : Shuttle} {blk : Block}
    (h : blockstorePut d blk = (none, d1)) :
    d1 = { d.tick with blockstore := d.blockstore ++ [blk] } := by
  cases hf : d.failing d.calls <;> simp [blockstorePut, Shuttle.attempt, hf] at h
  exact h.symm

theorem dbCreateObject_inv_ok {d d1 : Shuttle} {obj : Object} {id : Nat}
    (h : dbCreateObject d obj = (.ok id, d1)) :
    id = nextID (d.DB.objects.map (fun o => o.ID)) ∧ d1 = d.tick.insertObject obj := by
  cases hf : d.failing d.calls <;> simp [dbCreateObject, Shuttle.attempt, hf] at h
  exact ⟨h.1.symm, h.2.symm⟩

theorem dbCreateObjRef_inv_ok {d d1 : Shuttle} {ref : ObjRef} {id : Nat}
    (h : dbCreateObjRef d ref = (.ok id, d1)) :
    id = nextID (d.DB.objRefs.map (fun r => r.ID)) ∧ d1 = d.tick.insertObjRef ref := by
  cases hf : d.failing d.calls <;> simp [dbCreateObjRef, Shuttle.attempt, hf] at h
  exact ⟨h.1.symm, h.2.symm⟩

/-- A successful handleRpcAggregateContent either found a Pin for the content
id and did nothing, or found none and did all of its work: one Pin, one
Object, one ObjRef, one block and one spawned completion goroutine. -/
theorem aggregate_success_inv (d : Shuttle) (ctx : Ctx) (cmd : AggregateContent)
    (dr : Shuttle) (hr : handleRpcAggregateContent d ctx cmd = (none, dr)) :
    (pinsWithContent d.DB.pins cmd.DBID ≠ [] ∧ dr = d.tick) ∨
    (pinsWithContent d.DB.pins cmd.DBID = [] ∧ ∃ totalSize : Int,
      dr.DB.pins = d.DB.pins ++
        [{ ID := nextID (d.DB.pins.map (fun p => p.ID)), Content := cmd.DBID, Cid := cmd.Root,
           UserID := cmd.UserID, Size := totalSize, Active := true, Failed := false,
           Pinning := true, Aggregate := true }] ∧
      dr.DB.objects = d.DB.objects ++
        [{ ID := nextID (d.DB.objects.map (fun o => o.ID)), Cid := cmd.Root,
           Size := (cmd.ObjData.length : Int) }] ∧
      dr.DB.objRefs = d.DB.objRefs ++
        [{ ID := nextID (d.DB.objRefs.map (fun r => r.ID)),
           Pin := nextID (d.DB.pins.map (fun p => p.ID)),
           Object := nextID (d.DB.objects.map (fun o => o.ID)) }] ∧
      dr.blockstore = d.blockstore ++ [{ data := cmd.ObjData, cid := cmd.Root }] ∧
      dr.PinMgr = d.PinMgr ∧ dr.outgoing = d.outgoing ∧
      dr.detached = d.detached ++ [Goroutine.pinComplete ctx cmd.DBID totalSize []] ∧
      dr.trackingChannels = d.trackingChannels) := by
  unfold handleRpcAggregateContent at hr
  split at hr
  · rename_i p d1 h0
    obtain ⟨hp, hd1⟩ := dbFirstPin_inv_ok h0
    refine Or.inl ⟨fun hn => ?_, ?_⟩
    · rw [(pinFor_eq_none _ _).2 hn] at hp
      cases hp
    · simp only [Prod.mk.injEq, true_and] at hr
      rw [← hr, hd1]
  · rename_i d1 h0
    have hnone : pinsWithContent d.DB.pins cmd.DBID = [] :=
      (pinFor_eq_none _ _).1 ((dbFirstPin_inv_error h0).2 rfl)
    have hd1 := (dbFirstPin_inv_error h0).1
    split at hr
    · simp at hr
    · rename_i totalSize d2 h1
      obtain ⟨k, hk⟩ := aggregateLoop_snd cmd.Contents (wrapInt64 cmd.ObjData.length) d1
      rw [h1] at hk
      simp only at hk
      dsimp only at hr
      split at hr
      · simp at hr
      · rename_i pinID d3 h2
        obtain ⟨hid, hd3⟩ := dbCreatePin_inv_ok h2
        split at hr
        · simp at hr
        · rename_i blk d4 h3
          obtain ⟨hblk, hd4⟩ := newBlockWithCid_inv_ok h3
          split at hr
          · simp at hr
          · rename_i d5 h4
            have hd5 := blockstorePut_inv_ok h4
            split at hr
            · simp at hr
            · rename_i d6 h5
              have hd6 := dbUpdateActive_inv_ok h5
              split at hr
              · simp at hr
              · rename_i objID d7 h6
                obtain ⟨hoid, hd7⟩ := dbCreateObject_inv_ok h6
                split at hr
                · simp at hr
                · rename_i refID d8 h7
                  obtain ⟨_, hd8⟩ := dbCreateObjRef_inv_ok h7
                  simp only [Prod.mk.injEq, true_and] at hr
                  refine Or.inr ⟨hnone, totalSize, ?_⟩
                  subst hr hd8 hd7 hoid hd6 hd5 hd4 hblk hd3 hid hk hd1
                  simp [spawn, Shuttle.tick, Shuttle.ticks, Shuttle.insertPin, Shuttle.setActive,
                    Shuttle.insertObject, Shuttle.insertObjRef, map_update_fresh]
  · rename_i err d1 hne h0
    simp at hr

/-- The constituent loop succeeds as soon as its own lookups do not fail and
every constituent has an Active Pin that is not Failed. -/
theorem aggregateLoop_ok_range (cs : List Nat) :
    ∀ (t : Int) (d : Shuttle), (∀ i, i < cs.length → d.failing (d.calls + i) = false) →
      (∀ c ∈ cs, ∃ p, pinFor d.DB.pins c = some p ∧ p.Active = true ∧ p.Failed = false) →
      aggregateLoop cs (wrapInt64 t) d =
        (.ok (wrapInt64 (t + (cs.map (constituentSize d.DB.pins)).sum)), d.ticks cs.length) := by
  induction cs with
  | nil => intro t d _ _; simp [aggregateLoop, ticks_zero]
  | cons c cs ih =>
    intro t d hc hall
    obtain ⟨p, hp, ha, hf⟩ := hall c (List.mem_cons_self _ _)
    have hrest : ∀ c1 ∈ cs, ∃ p, pinFor d.tick.DB.pins c1 = some p ∧ p.Active = true ∧
        p.Failed = false := fun c1 h1 => hall c1 (List.mem_cons_of_mem _ h1)
    have hc0 : d.failing d.calls = false := by simpa using hc 0 (by simp)
    have hc1 : ∀ i, i < cs.length → d.tick.failing (d.tick.calls + i) = false := by
      intro i hi
      have := hc (i + 1) (by simpa using hi)
      simpa [Shuttle.tick, Nat.add_comm, Nat.add_left_comm] using this
    have hstep := ih (t + p.Size) d.tick hc1 hrest
    simp only [aggregateLoop, dbFirstPin_of_some hc0 c p hp, ha, hf]
    simp only [wrapInt64_add_left]
    simp only [Bool.not_true, Bool.or_self, Bool.false_eq_true, if_false]
    rw [hstep]
    simp [constituentSize, hp, tick_ticks, add_assoc]

/-- With a Pin for the content id in the store and the lookup not failing,
handleRpcAggregateContent returns at once. -/
theorem aggregate_of_existing {d : Shuttle} (ctx : Ctx) (cmd : AggregateContent)
    (hcall : d.failing d.calls = false) (hpin : pinsWithContent d.DB.pins cmd.DBID ≠ []) :
    handleRpcAggregateContent d ctx cmd = (none, d.tick) := by
  cases hp : pinFor d.DB.pins cmd.DBID with
  | none => exact absurd ((pinFor_eq_none _ _).1 hp) hpin
  | some p => simp [handleRpcAggregateContent, dbFirstPin_of_some hcall cmd.DBID p hp]

/-- After a successful handleRpcAggregateContent the store holds a Pin for the
content id. -/
theorem aggregate_success_has_pin (d : Shuttle) (ctx : Ctx) (cmd : AggregateContent)
    (dr : Shuttle) (hr : handleRpcAggregateContent d ctx cmd = (none, dr)) :
    pinsWithContent dr.DB.pins cmd.DBID ≠ [] := by
  rcases aggregate_success_inv d ctx cmd dr hr with ⟨hne, rfl⟩ | ⟨_, t, hp, _⟩
  · exact hne
  · rw [hp, pinsWithContent_append]
    simp [pinsWithContent]

/-- C12: when the store already holds a Pin row for the aggregate's content
id, whatever its flags, and the lookup does not fail, handleRpcAggregateContent
returns success and changes nothing: no row, no block, no message, no spawned
goroutine, no queued work.  Hence after any successful AggregateContent
command, running the same command again (its lookup not failing) succeeds and
leaves rows, block store, outbound channel, goroutines and pin manager exactly
as the first run left them. -/
theorem aggregate_existing_is_noop (d : Shuttle) (ctx : Ctx) (cmd : AggregateContent) :
    (d.failing d.calls = false → pinsWithContent d.DB.pins cmd.DBID ≠ [] →
      ∃ d1, handleRpcAggregateContent d ctx cmd = (none, d1) ∧
        d1.DB = d.DB ∧ d1.blockstore = d.blockstore ∧ d1.outgoing = d.outgoing ∧
        d1.detached = d.detached ∧ d1.PinMgr = d.PinMgr ∧
        d1.trackingChannels = d.trackingChannels) ∧
    (∀ d1, handleRpcAggregateContent d ctx cmd = (none, d1) → d1.failing d1.calls = false →
      ∃ d2, handleRpcAggregateContent d1 ctx cmd = (none, d2) ∧
        d2.DB = d1.DB ∧ d2.blockstore = d1.blockstore ∧ d2.outgoing = d1.outgoing ∧
        d2.detached = d1.detached ∧ d2.PinMgr = d1.PinMgr ∧
        d2.trackingChannels = d1.trackingChannels) :=
  ⟨fun hcall hpin => ⟨d.tick, aggregate_of_existing ctx cmd hcall hpin, rfl, rfl, rfl, rfl, rfl,
      rfl⟩,
   fun d1 h1 hcall => ⟨d1.tick, aggregate_of_existing ctx cmd hcall
      (aggregate_success_has_pin d ctx cmd d1 h1), rfl, rfl, rfl, rfl, rfl, rfl⟩⟩

theorem aggregate_existing_is_noop_witness :
    (∃ d1, handleRpcAggregateContent pinningShuttle Ctx.TODO
        ⟨7, 3, [1, 2], ⟨"root"⟩, [1, 2, 3]⟩ = (none, d1) ∧
      d1.DB = pinningShuttle.DB ∧ d1.blockstore = pinningShuttle.blockstore ∧
      d1.outgoing = pinningShuttle.outgoing ∧ d1.detached = pinningShuttle.detached ∧
      d1.PinMgr = pinningShuttle.PinMgr ∧
      d1.trackingChannels = pinningShuttle.trackingChannels) ∧
    (∃ d2, handleRpcAggregateContent
        (handleRpcAggregateContent twoPinsShuttle Ctx.TODO
          ⟨9, 3, [1, 2], ⟨"root"⟩, List.replicate 50 0⟩).2 Ctx.TODO
        ⟨9, 3, [1, 2], ⟨"root"⟩, List.replicate 50 0⟩ = (none, d2) ∧
      d2.DB = (handleRpcAggregateContent twoPinsShuttle Ctx.TODO
          ⟨9, 3, [1, 2], ⟨"root"⟩, List.replicate 50 0⟩).2.DB ∧
      d2.blockstore = (handleRpcAggregateContent twoPinsShuttle Ctx.TODO
          ⟨9, 3, [1, 2], ⟨"root"⟩, List.replicate 50 0⟩).2.blockstore ∧
      d2.outgoing = (handleRpcAggregateContent twoPinsShuttle Ctx.TODO
          ⟨9, 3, [1, 2], ⟨"root"⟩, List.replicate 50 0⟩).2.outgoing ∧
      d2.detached = (handleRpcAggregateContent twoPinsShuttle Ctx.TODO
          ⟨9, 3, [1, 2], ⟨"root"⟩, List.replicate 50 0⟩).2.detached ∧
      d2.PinMgr = (handleRpcAggregateContent twoPinsShuttle Ctx.TODO
          ⟨9, 3, [1, 2], ⟨"root"⟩, List.replicate 50 0⟩).2.PinMgr ∧
      d2.trackingChannels = (handleRpcAggregateContent twoPinsShuttle Ctx.TODO
          ⟨9, 3, [1, 2], ⟨"root"⟩, List.replicate 50 0⟩).2.trackingChannels) :=
  ⟨(aggregate_existing_is_noop pinningShuttle Ctx.TODO
      ⟨7, 3, [1, 2], ⟨"root"⟩, [1, 2, 3]⟩).1 rfl (by decide),
   (aggregate_existing_is_noop twoPinsShuttle Ctx.TODO
      ⟨9, 3, [1, 2], ⟨"root"⟩, List.replicate 50 0⟩).2 _
      (Prod.ext (by decide) rfl) rfl⟩

/-- C20: whenever handleRpcAggregateContent succeeds and has created a Pin, it
has sent nothing itself and spawned exactly one goroutine, which once run
(context not cancelled) delivers exactly one PinComplete message: its DBID is
the aggregate's content id, its Size is the Size stored on the created Pin
row, and its Objects list is empty, although the run has also created the root
Object and the ObjRef row linking it to the Pin. -/
theorem aggregate_completion_message (d : Shuttle) (ctx : Ctx) (cmd : AggregateContent)
    (d1 : Shuttle) (hok : handleRpcAggregateContent d ctx cmd = (none, d1))
    (hcreated : d1.DB.pins ≠ d.DB.pins) (hctx : ctx.done = false) :
    ∃ p, d1.DB.pins = d.DB.pins ++ [p] ∧ p.Content = cmd.DBID ∧
      d1.outgoing = d.outgoing ∧
      d1.detached = d.detached ++ [Goroutine.pinComplete ctx cmd.DBID p.Size []] ∧
      (runGoroutine d1 (.pinComplete ctx cmd.DBID p.Size [])).outgoing = d.outgoing ++
        [{ Op := "PinComplete",
           Params := { PinComplete := some { DBID := cmd.DBID, Size := p.Size,
                                             Objects := [] } } }] ∧
      ∃ o r, d1.DB.objects = d.DB.objects ++ [o] ∧ d1.DB.objRefs = d.DB.objRefs ++ [r] ∧
        o.Cid = cmd.Root ∧ r.Pin = p.ID ∧ r.Object = o.ID := by
  rcases aggregate_success_inv d ctx cmd d1 hok with ⟨_, rfl⟩ | ⟨_, t, hp, ho, hrf, _, _, hout, hdet, _⟩
  · exact absurd rfl hcreated
  · refine ⟨_, hp, rfl, hout, hdet, ?_, _, _, ho, hrf, rfl, rfl, rfl⟩
    simp [runGoroutine, sendPinCompleteMessage, sendRpcMessage, hctx, hout, OP_PinComplete]

theorem aggregate_completion_message_witness :
    ∃ p, (handleRpcAggregateContent twoPinsShuttle Ctx.TODO
          ⟨9, 3, [1, 2], ⟨"root"⟩, List.replicate 50 0⟩).2.DB.pins =
        twoPinsShuttle.DB.pins ++ [p] ∧ p.Content = 9 ∧
      (handleRpcAggregateContent twoPinsShuttle Ctx.TODO
          ⟨9, 3, [1, 2], ⟨"root"⟩, List.replicate 50 0⟩).2.outgoing = twoPinsShuttle.outgoing ∧
      (handleRpcAggregateContent twoPinsShuttle Ctx.TODO
          ⟨9, 3, [1, 2], ⟨"root"⟩, List.replicate 50 0⟩).2.detached =
        twoPinsShuttle.detached ++ [Goroutine.pinComplete Ctx.TODO 9 p.Size []] ∧
      (runGoroutine (handleRpcAggregateContent twoPinsShuttle Ctx.TODO
          ⟨9, 3, [1, 2], ⟨"root"⟩, List.replicate 50 0⟩).2
        (.pinComplete Ctx.TODO 9 p.Size [])).outgoing = twoPinsShuttle.outgoing ++
        [{ Op := "PinComplete",
           Params := { PinComplete := some { DBID := 9, Size := p.Size, Objects := [] } } }] ∧
      ∃ o r, (handleRpcAggregateContent twoPinsShuttle Ctx.TODO
            ⟨9, 3, [1, 2], ⟨"root"⟩, List.replicate 50 0⟩).2.DB.objects =
          twoPinsShuttle.DB.objects ++ [o] ∧
        (handleRpcAggregateContent twoPinsShuttle Ctx.TODO
            ⟨9, 3, [1, 2], ⟨"root"⟩, List.replicate 50 0⟩).2.DB.objRefs =
          twoPinsShuttle.DB.objRefs ++ [r] ∧
        o.Cid = ⟨"root"⟩ ∧ r.Pin = p.ID ∧ r.Object = o.ID :=
  aggregate_completion_message twoPinsShuttle Ctx.TODO
    ⟨9, 3, [1, 2], ⟨"root"⟩, List.replicate 50 0⟩ _ (Prod.ext (by decide) rfl) (by decide) rfl

/-- The completion message of the example of the specification: Size 400 and
no objects. -/
theorem aggregate_example_message :
    (runGoroutine (handleRpcAggregateContent twoPinsShuttle Ctx.TODO
        ⟨9, 3, [1, 2], ⟨"root"⟩, List.replicate 50 0⟩).2
      (.pinComplete Ctx.TODO 9 400 [])).outgoing =
      [{ Op := "PinComplete",
         Params := { PinComplete := some { DBID := 9, Size := 400, Objects := [] } } }] ∧
    (handleRpcAggregateContent twoPinsShuttle Ctx.TODO
        ⟨9, 3, [1, 2], ⟨"root"⟩, List.replicate 50 0⟩).2.detached =
      [Goroutine.pinComplete Ctx.TODO 9 400 []] := by
  decide

/-! ### Rows the pin commands never touch -/

theorem unique_eq (pins : List Pin) (hu : UniqueContent pins) (p q : Pin) (hp : p ∈ pins)
    (hq : q ∈ pins) (h : q.Content = p.Content) : q = p := by
  have hpm : p ∈ pinsWithContent pins p.Content := List.mem_filter.2 ⟨hp, by simp⟩
  have hqm : q ∈ pinsWithContent pins p.Content := List.mem_filter.2 ⟨hq, by simp [h]⟩
  have hlen := hu p.Content
  cases hl : pinsWithContent pins p.Content with
  | nil => rw [hl] at hpm; simp at hpm
  | cons a as =>
    rw [hl] at hpm hqm hlen
    cases as with
    | nil =>
      have h1 : p = a := by simpa using hpm
      have h2 : q = a := by simpa using hqm
      rw [h1, h2]
    | cons b bs => simp at hlen

theorem pinning_row_fixed (p : Pin) (hp : p.Pinning = true) (id : Nat) :
    (if p.ID = id then { p with Pinning := true } else p) = p := by
  cases p
  simp only at hp
  subst hp
  simp

/-- A sequence of pin commands keeps every property of the pins table that
each single command keeps. -/
theorem handlePinCommands_preserves (I : List Pin → Prop)
    (hstep : ∀ (d : Shuttle) (ctx : Ctx) (c : PinCommand),
      I d.DB.pins → I (handlePinCommand d ctx c).2.DB.pins)
    (ctx : Ctx) (cmds : List PinCommand) :
    ∀ d : Shuttle, I d.DB.pins → I (handlePinCommands ctx cmds d).DB.pins := by
  induction cmds with
  | nil => intro d h; exact h
  | cons c cs ih => intro d h; exact ih _ (hstep d ctx c h)

/-- Whatever fails, addPin leaves a row that is Pinning where and as it is. -/
theorem addPin_keeps_pinning_row (p : Pin) (hp : p.Pinning = true) (d : Shuttle) (ctx : Ctx)
    (c : Nat) (data : Cid) (user : Nat) (skip : Bool) (hmem : p ∈ d.DB.pins) :
    p ∈ (addPin d ctx c data user skip).2.DB.pins := by
  rcases addPin_effect d ctx c data user skip with e | ⟨q, rest, _, _, _, _, e⟩ | ⟨_, e⟩
  · rw [e]; exact hmem
  · rw [e]
    simp only [Shuttle.setPinning, List.mem_map]
    exact ⟨p, hmem, pinning_row_fixed p hp q.ID⟩
  · rw [e, pins_insertPin]
    exact List.mem_append_left _ hmem

/-- Whatever fails, a pin command leaves a row that is Pinning where and as it is. -/
theorem handlePinCommand_keeps_pinning_row (p : Pin) (hp : p.Pinning = true) (d : Shuttle)
    (ctx : Ctx) (cmd : PinCommand) (hmem : p ∈ d.DB.pins) :
    p ∈ (handlePinCommand d ctx cmd).2.DB.pins := by
  cases cmd with
  | addPin apo => exact addPin_keeps_pinning_row p hp d ctx _ _ _ _ hmem
  | takeContent cmd =>
    exact takeContentLoop_preserves (fun pins => p ∈ pins)
      (fun d ctx c data user skip h => addPin_keeps_pinning_row p hp d ctx c data user skip h)
      ctx cmd.Contents d hmem
  | aggregateContent cmd =>
    rcases aggregate_effect_pins d ctx cmd _ rfl with h | ⟨_, q, _, _, h, _⟩
    · simp only [handlePinCommand]; rw [h]; exact hmem
    · simp only [handlePinCommand]; rw [h]; exact List.mem_append_left _ hmem

/-! ### Failed pins stay out of flight -/

theorem keysDistinct_setPinning (pins : List Pin) (id : Nat) (v : Bool)
    (hk : KeysDistinct pins) :
    KeysDistinct (pins.map (fun q => if q.ID = id then { q with Pinning := v } else q)) := by
  have hid : (pins.map (fun q => if q.ID = id then { q with Pinning := v } else q)).map
      (fun q => q.ID) = pins.map (fun q => q.ID) := by
    simp only [List.map_map]
    apply List.map_congr_left
    intro q _
    by_cases hq : q.ID = id <;> simp [hq]
  unfold KeysDistinct
  rw [hid]
  exact hk

theorem keysDistinct_insert (pins : List Pin) (pin : Pin) (hk : KeysDistinct pins) :
    KeysDistinct (pins ++ [{ pin with ID := nextID (pins.map (fun p => p.ID)) }]) := by
  unfold KeysDistinct
  simp only [List.map_append, List.map_cons, List.map_nil]
  refine List.Nodup.append hk (List.nodup_singleton _) ?_
  intro x hx hx1
  rw [List.mem_singleton.1 hx1] at hx
  exact nextID_not_mem _ hx

/-- With distinct primary keys, addPin keeps every Failed Pin out of flight,
whatever fails. -/
theorem addPin_keeps_failed_not_pinning (d : Shuttle) (ctx : Ctx) (c : Nat) (data : Cid)
    (user : Nat) (skip : Bool)
    (h : KeysDistinct d.DB.pins ∧ FailedNotPinning d.DB.pins) :
    KeysDistinct (addPin d ctx c data user skip).2.DB.pins ∧
      FailedNotPinning (addPin d ctx c data user skip).2.DB.pins := by
  obtain ⟨hk, hinv⟩ := h
  rcases addPin_effect d ctx c data user skip with e | ⟨p, rest, hs, _, _, hfl, e⟩ | ⟨_, e⟩
  · rw [e]; exact ⟨hk, hinv⟩
  · rw [e]
    have hp : p ∈ d.DB.pins := by
      have : p ∈ pinsWithContent d.DB.pins c := by rw [hs]; exact List.mem_cons_self _ _
      exact (List.mem_filter.1 this).1
    refine ⟨keysDistinct_setPinning _ _ _ hk, ?_⟩
    intro q1 hq1 hq1f
    simp only [Shuttle.setPinning, List.mem_map] at hq1
    obtain ⟨q, hq, rfl⟩ := hq1
    by_cases hid : q.ID = p.ID
    · have hqp : q = p := List.inj_on_of_nodup_map hk hq hp hid
      subst hqp
      simp [hfl] at hq1f
    · simp only [hid, if_false] at hq1f ⊢
      exact hinv q hq hq1f
  · rw [e, pins_insertPin]
    refine ⟨keysDistinct_insert _ _ hk, ?_⟩
    intro q hq hqf
    rcases List.mem_append.1 hq with hq | hq
    · exact hinv q hq hqf
    · rw [List.mem_singleton.1 hq] at hqf
      simp [freshPin] at hqf

/-- With distinct primary keys, a pin command keeps every Failed Pin out of
flight, whatever fails. -/
theorem handlePinCommand_keeps_failed_not_pinning (d : Shuttle) (ctx : Ctx) (cmd : PinCommand)
    (h : KeysDistinct d.DB.pins ∧ FailedNotPinning d.DB.pins) :
    KeysDistinct (handlePinCommand d ctx cmd).2.DB.pins ∧
      FailedNotPinning (handlePinCommand d ctx cmd).2.DB.pins := by
  cases cmd with
  | addPin apo => exact addPin_keeps_failed_not_pinning d ctx _ _ _ _ h
  | takeContent cmd =>
    exact takeContentLoop_preserves (fun pins => KeysDistinct pins ∧ FailedNotPinning pins)
      addPin_keeps_failed_not_pinning ctx cmd.Contents d h
  | aggregateContent cmd =>
    rcases aggregate_effect_pins d ctx cmd _ rfl with e | ⟨_, q, _, hqf, e, hqid⟩
    · simp only [handlePinCommand]; rw [e]; exact h
    · simp only [handlePinCommand]; rw [e]
      have hq : q = { q with ID := nextID (d.DB.pins.map (fun p => p.ID)) } := by
        cases q
        simp only at hqid
        subst hqid
        rfl
      refine ⟨by rw [hq]; exact keysDistinct_insert _ _ h.1, ?_⟩
      intro x hx hxf
      rcases List.mem_append.1 hx with hx | hx
      · exact h.2 x hx hxf
      · rw [List.mem_singleton.1 hx, hqf] at hxf
        cases hxf

/-- When the first Pin found for the content id is Failed, addPin changes no
row, whatever fails. -/
theorem addPin_failed_no_change (d : Shuttle) (ctx : Ctx) (c : Nat) (data : Cid) (user : Nat)
    (skip : Bool) (p : Pin) (hfound : (pinsWithContent d.DB.pins c).head? = some p)
    (hf : p.Failed = true) : (addPin d ctx c data user skip).2.DB = d.DB := by
  rcases addPin_effect d ctx c data user skip with e | ⟨q, rest, hs, _, _, hqf, _⟩ | ⟨hn, _⟩
  · exact e
  · rw [hs] at hfound
    simp only [List.head?_cons, Option.some.injEq] at hfound
    rw [hfound, hf] at hqf
    cases hqf
  · rw [hn] at hfound
    cases hfound

/-- C17: with distinct primary keys, if every Failed Pin row has Pinning =
false, the same holds after any sequence of AddPin, TakeContent and
AggregateContent commands, whether each succeeds or fails and whichever store
or block store calls fail; in particular an AddPin whose lookup finds a Failed
Pin first changes no row at all, so it never sets Pinning back to true. -/
theorem handlePinCommands_failed_not_pinning (ctx : Ctx) (cmds : List PinCommand) (d : Shuttle)
    (hk : KeysDistinct d.DB.pins) (hinv : FailedNotPinning d.DB.pins) :
    FailedNotPinning (handlePinCommands ctx cmds d).DB.pins ∧
    ∀ (c : Nat) (data : Cid) (user : Nat) (skip : Bool) (p : Pin),
      (pinsWithContent d.DB.pins c).head? = some p → p.Failed = true →
      (addPin d ctx c data user skip).2.DB = d.DB :=
  ⟨(handlePinCommands_preserves (fun pins => KeysDistinct pins ∧ FailedNotPinning pins)
      handlePinCommand_keeps_failed_not_pinning ctx cmds d ⟨hk, hinv⟩).2,
   fun c data user skip p hfound hf => addPin_failed_no_change d ctx c data user skip p hfound hf⟩

theorem handlePinCommands_failed_not_pinning_witness :
    FailedNotPinning (handlePinCommands Ctx.TODO
      [.addPin ⟨7, 3, ⟨"bafy7"⟩⟩, .takeContent ⟨[⟨7, ⟨"bafy7"⟩, 3⟩, ⟨8, ⟨"bafy8"⟩, 4⟩]⟩,
       .aggregateContent ⟨9, 3, [7], ⟨"root"⟩, [1, 2, 3]⟩, .addPin ⟨7, 3, ⟨"bafy7"⟩⟩]
      failedShuttle).DB.pins ∧
    ∀ (c : Nat) (data : Cid) (user : Nat) (skip : Bool) (p : Pin),
      (pinsWithContent failedShuttle.DB.pins c).head? = some p → p.Failed = true →
      (addPin failedShuttle Ctx.TODO c data user skip).2.DB = failedShuttle.DB :=
  handlePinCommands_failed_not_pinning Ctx.TODO _ failedShuttle
    (by unfold KeysDistinct; decide) (by unfold FailedNotPinning; decide)

/-! ### Repair of a stalled Pin -/

/-- With the first Pin found neither Active, Pinning nor Failed and no store
call failing, addPin marks the rows keyed like it Pinning and queues the
operation. -/
theorem addPin_of_stalled {d : Shuttle} (h : d.calm) (ctx : Ctx) (c : Nat) (data : Cid)
    (user : Nat) (skip : Bool) (p : Pin) (rest : List Pin)
    (hs : pinsWithContent d.DB.pins c = p :: rest) (ha : p.Active = false)
    (hp : p.Pinning = false) (hf : p.Failed = false) :
    addPin d ctx c data user skip =
      (none, pinMgrAdd (d.tick.tick.setPinning p.ID true) (queuedOp c data user skip)) := by
  have h1 : d.tick.calm := h
  simp [addPin, dbFindPins_of_calm h, hs, ha, hp, hf, dbUpdatePinning, attempt_of_calm h1,
    queuedOp]

/-- C15: when the first Pin found for the content id is neither Active,
Pinning nor Failed, the primary keys are distinct and the store calls succeed,
addPin returns success, sets the Pinning flag of that Pin and changes nothing
else: its other fields, every other Pin row, the objects and the references
are as before, no Pin row is added, no message is sent and no goroutine is
spawned; the operation is handed to the pin manager. -/
theorem addPin_repairs_stalled (d : Shuttle) (ctx : Ctx) (c : Nat) (data : Cid) (user : Nat)
    (skip : Bool) (p : Pin) (hcalm : d.calm) (hk : KeysDistinct d.DB.pins)
    (hfound : (pinsWithContent d.DB.pins c).head? = some p)
    (ha : p.Active = false) (hp : p.Pinning = false) (hf : p.Failed = false) :
    ∃ d1, addPin d ctx c data user skip = (none, d1) ∧
      d1.DB.pins = d.DB.pins.map (fun q => if q = p then { p with Pinning := true } else q) ∧
      d1.DB.pins.length = d.DB.pins.length ∧
      d1.DB.objects = d.DB.objects ∧ d1.DB.objRefs = d.DB.objRefs ∧
      d1.outgoing = d.outgoing ∧ d1.detached = d.detached ∧ d1.blockstore = d.blockstore ∧
      d1.PinMgr = d.PinMgr ++ [queuedOp c data user skip] := by
  cases hs : pinsWithContent d.DB.pins c with
  | nil => simp [hs] at hfound
  | cons e rest =>
    simp [hs] at hfound
    subst hfound
    have hmem : e ∈ d.DB.pins := by
      have : e ∈ pinsWithContent d.DB.pins c := by rw [hs]; exact List.mem_cons_self _ _
      exact (List.mem_filter.1 this).1
    have hpins : (pinMgrAdd (d.tick.tick.setPinning e.ID true)
        (queuedOp c data user skip)).DB.pins =
        d.DB.pins.map (fun q => if q = e then { e with Pinning := true } else q) := by
      simp only [pinMgrAdd, Shuttle.setPinning, tick_DB]
      apply List.map_congr_left
      intro q hq
      by_cases hqe : q = e
      · subst hqe; simp
      · have hid : q.ID ≠ e.ID := fun hid => hqe (List.inj_on_of_nodup_map hk hq hmem hid)
        simp [hqe, hid]
    refine ⟨_, addPin_of_stalled hcalm ctx c data user skip e rest hs ha hp hf, hpins, ?_,
      rfl, rfl, rfl, rfl, rfl, rfl⟩
    rw [hpins, List.length_map]

theorem addPin_repairs_stalled_witness :
    ∃ d1, addPin stalledShuttle Ctx.TODO 7 ⟨"bafy7"⟩ 3 false = (none, d1) ∧
      d1.DB.pins = stalledShuttle.DB.pins.map
        (fun q => if q = { ID := 2, Content := 7, Cid := ⟨"bafy7"⟩, UserID := 3 }
          then { ({ ID := 2, Content := 7, Cid := ⟨"bafy7"⟩, UserID := 3 } : Pin) with
                 Pinning := true }
          else q) ∧
      d1.DB.pins.length = stalledShuttle.DB.pins.length ∧
      d1.DB.objects = stalledShuttle.DB.objects ∧ d1.DB.objRefs = stalledShuttle.DB.objRefs ∧
      d1.outgoing = stalledShuttle.outgoing ∧ d1.detached = stalledShuttle.detached ∧
      d1.blockstore = stalledShuttle.blockstore ∧
      d1.PinMgr = stalledShuttle.PinMgr ++ [queuedOp 7 ⟨"bafy7"⟩ 3 false] :=
  addPin_repairs_stalled stalledShuttle Ctx.TODO 7 ⟨"bafy7"⟩ 3 false
    { ID := 2, Content := 7, Cid := ⟨"bafy7"⟩, UserID := 3 } (fun _ => rfl)
    (by unfold KeysDistinct; decide) (by decide) rfl rfl rfl

/-- The repair of the example evaluated: the stalled Pin becomes Pinning and
the other row is untouched. -/
theorem addPin_stalled_example :
    (addPin stalledShuttle Ctx.TODO 7 ⟨"bafy7"⟩ 3 false).2.DB.pins =
      [{ ID := 1, Content := 6, Cid := ⟨"bafy6"⟩, UserID := 3, Active := true },
       { ID := 2, Content := 7, Cid := ⟨"bafy7"⟩, UserID := 3, Pinning := true }] := by
  decide

/-! ### Aggregation stopped by the block store -/

/-- The state handleRpcAggregateContent leaves when block construction or the
block store write fails after the lookups and the insert of the Pin went
through. -/
theorem aggregate_of_block_failure {d : Shuttle} (ctx : Ctx) (cmd : AggregateContent)
    (hnone : pinsWithContent d.DB.pins cmd.DBID = [])
    (hall : ∀ c ∈ cmd.Contents,
      ∃ p, pinFor d.DB.pins c = some p ∧ p.Active = true ∧ p.Failed = false)
    (hpre : ∀ i, i ≤ cmd.Contents.length + 1 → d.failing (d.calls + i) = false)
    (hfail : d.failing (d.calls + (cmd.Contents.length + 2)) = true ∨
      (d.failing (d.calls + (cmd.Contents.length + 2)) = false ∧
        d.failing (d.calls + (cmd.Contents.length + 3)) = true)) :
    ∃ d1, handleRpcAggregateContent d ctx cmd = (some .external, d1) ∧
      d1.DB.pins = d.DB.pins ++
        [{ ID := nextID (d.DB.pins.map (fun p => p.ID)), Content := cmd.DBID, Cid := cmd.Root,
           UserID := cmd.UserID,
           Size := wrapInt64 ((cmd.ObjData.length : Int) +
             (cmd.Contents.map (constituentSize d.DB.pins)).sum),
           Active := false, Failed := false, Pinning := true, Aggregate := true }] ∧
      d1.DB.objects = d.DB.objects ∧ d1.DB.objRefs = d.DB.objRefs ∧
      d1.blockstore = d.blockstore ∧ d1.outgoing = d.outgoing ∧ d1.detached = d.detached ∧
      d1.PinMgr = d.PinMgr ∧ d1.trackingChannels = d.trackingChannels := by
  have h0 := dbFirstPin_of_none (by simpa using hpre 0 (by omega)) cmd.DBID
    ((pinFor_eq_none _ _).2 hnone)
  have hrange : ∀ i, i < cmd.Contents.length → d.tick.failing (d.tick.calls + i) = false := by
    intro i hi
    have := hpre (i + 1) (by omega)
    simpa [Shuttle.tick, Nat.add_comm, Nat.add_left_comm] using this
  have h1 := aggregateLoop_ok_range cmd.Contents (cmd.ObjData.length : Int) d.tick hrange hall
  have hcreate : d.failing (d.calls + 1 + cmd.Contents.length) = false := by
    have := hpre (cmd.Contents.length + 1) (by omega)
    rwa [show d.calls + (cmd.Contents.length + 1) = d.calls + 1 + cmd.Contents.length by omega]
      at this
  have e2 : d.calls + (cmd.Contents.length + 2) = d.calls + 1 + cmd.Contents.length + 1 := by
    omega
  have e3 : d.calls + (cmd.Contents.length + 3) = d.calls + 1 + cmd.Contents.length + 1 + 1 := by
    omega
  rw [e2, e3] at hfail
  simp only [handleRpcAggregateContent, h0, h1]
  rcases hfail with hA | ⟨hB1, hB2⟩
  · simp [dbCreatePin, newBlockWithCid, Shuttle.attempt, Shuttle.tick, Shuttle.ticks,
      Shuttle.insertPin, hcreate, hA]
  · simp [dbCreatePin, newBlockWithCid, blockstorePut, Shuttle.attempt, Shuttle.tick,
      Shuttle.ticks, Shuttle.insertPin, hcreate, hB1, hB2]

/-- C19: when the store has no Pin for content id c, every listed constituent
has an Active Pin that is not Failed, the lookups and the insert of the Pin go
through, and then block construction or the block store write fails,
handleRpcAggregateContent returns that error and its only mutation is one
added Pin row for c with Aggregate = true, Pinning = true, Active = false: no
Object row, no ObjRef row, no block, no message, no goroutine.  A later
AggregateContent command for c (its lookup not failing) returns success and
changes nothing; after any sequence of pin commands that row is still in the
table as it was, and it is the only row for c when content ids were unique, so
this core never marks it Active. -/
theorem aggregate_block_failure_strands_pin (d : Shuttle) (ctx : Ctx) (cmd : AggregateContent)
    (hnone : pinsWithContent d.DB.pins cmd.DBID = [])
    (hall : ∀ c ∈ cmd.Contents,
      ∃ p, pinFor d.DB.pins c = some p ∧ p.Active = true ∧ p.Failed = false)
    (hpre : ∀ i, i ≤ cmd.Contents.length + 1 → d.failing (d.calls + i) = false)
    (hfail : d.failing (d.calls + (cmd.Contents.length + 2)) = true ∨
      (d.failing (d.calls + (cmd.Contents.length + 2)) = false ∧
        d.failing (d.calls + (cmd.Contents.length + 3)) = true)) :
    ∃ d1 p, handleRpcAggregateContent d ctx cmd = (some .external, d1) ∧
      p = { ID := nextID (d.DB.pins.map (fun p => p.ID)), Content := cmd.DBID,
            Cid := cmd.Root, UserID := cmd.UserID,
            Size := wrapInt64 ((cmd.ObjData.length : Int) +
              (cmd.Contents.map (constituentSize d.DB.pins)).sum),
            Active := false, Failed := false, Pinning := true, Aggregate := true } ∧
      d1.DB.pins = d.DB.pins ++ [p] ∧
      d1.DB.objects = d.DB.objects ∧ d1.DB.objRefs = d.DB.objRefs ∧
      d1.blockstore = d.blockstore ∧ d1.outgoing = d.outgoing ∧ d1.detached = d.detached ∧
      d1.PinMgr = d.PinMgr ∧
      (∀ (ctx2 : Ctx) (cmd2 : AggregateContent), cmd2.DBID = cmd.DBID →
        d1.failing d1.calls = false →
        ∃ d2, handleRpcAggregateContent d1 ctx2 cmd2 = (none, d2) ∧
          d2.DB = d1.DB ∧ d2.blockstore = d1.blockstore ∧ d2.outgoing = d1.outgoing ∧
          d2.detached = d1.detached ∧ d2.PinMgr = d1.PinMgr) ∧
      (∀ (ctx2 : Ctx) (cmds : List PinCommand),
        p ∈ (handlePinCommands ctx2 cmds d1).DB.pins) ∧
      (UniqueContent d.DB.pins → ∀ (ctx2 : Ctx) (cmds : List PinCommand) (q : Pin),
        q ∈ (handlePinCommands ctx2 cmds d1).DB.pins → q.Content = cmd.DBID → q = p) := by
  obtain ⟨d1, h1, hp, ho, hr, hb, hout, hdet, hmgr, _⟩ :=
    aggregate_of_block_failure ctx cmd hnone hall hpre hfail
  have hmem :
      ({ ID := nextID (d.DB.pins.map (fun p => p.ID)), Content := cmd.DBID,
         Cid := cmd.Root, UserID := cmd.UserID,
         Size := wrapInt64 ((cmd.ObjData.length : Int) +
           (cmd.Contents.map (constituentSize d.DB.pins)).sum),
         Active := false, Failed := false, Pinning := true, Aggregate := true } : Pin) ∈
        d1.DB.pins := by
    rw [hp]
    exact List.mem_append_right _ (List.mem_singleton_self _)
  refine ⟨d1, _, h1, rfl, hp, ho, hr, hb, hout, hdet, hmgr, ?_, ?_, ?_⟩
  · intro ctx2 cmd2 hid hcall
    refine ⟨d1.tick, aggregate_of_existing ctx2 cmd2 hcall ?_, rfl, rfl, rfl, rfl, rfl⟩
    rw [hid, hp, pinsWithContent_append]
    simp [pinsWithContent]
  · intro ctx2 cmds
    exact handlePinCommands_preserves (fun pins => _ ∈ pins)
      (fun d0 ctx0 c0 h => handlePinCommand_keeps_pinning_row _ rfl d0 ctx0 c0 h) ctx2 cmds d1 hmem
  · intro hu ctx2 cmds q hq hqc
    have hu1 : UniqueContent d1.DB.pins := by
      rw [hp]
      exact unique_append_fresh _ _ hu hnone
    have hu2 := handlePinCommands_preserves UniqueContent handlePinCommand_unique ctx2 cmds d1 hu1
    have hm2 := handlePinCommands_preserves (fun pins => _ ∈ pins)
      (fun d0 ctx0 c0 h => handlePinCommand_keeps_pinning_row _ rfl d0 ctx0 c0 h) ctx2 cmds d1 hmem
    exact unique_eq _ hu2 _ q hm2 hq hqc

theorem aggregate_block_failure_strands_pin_witness :
    ∃ d1 p, handleRpcAggregateContent putFailsShuttle Ctx.TODO ⟨9, 3, [1, 2], ⟨"root"⟩, List.replicate 50 0⟩ = (some .external, d1) ∧
      p = { ID := nextID (putFailsShuttle.DB.pins.map (fun p => p.ID)), Content := 9,
            Cid := ⟨"root"⟩, UserID := 3,
            Size := wrapInt64 (((List.replicate 50 (0 : UInt8)).length : Int) +
              ([1, 2].map (constituentSize putFailsShuttle.DB.pins)).sum),
            Active := false, Failed := false, Pinning := true, Aggregate := true } ∧
      d1.DB.pins = putFailsShuttle.DB.pins ++ [p] ∧
      d1.DB.objects = putFailsShuttle.DB.objects ∧ d1.DB.objRefs = putFailsShuttle.DB.objRefs ∧
      d1.blockstore = putFailsShuttle.blockstore ∧ d1.outgoing = putFailsShuttle.outgoing ∧ d1.detached = putFailsShuttle.detached ∧
      d1.PinMgr = putFailsShuttle.PinMgr ∧
      (∀ (ctx2 : Ctx) (cmd2 : AggregateContent), cmd2.DBID = 9 →
        d1.failing d1.calls = false →
        ∃ d2, handleRpcAggregateContent d1 ctx2 cmd2 = (none, d2) ∧
          d2.DB = d1.DB ∧ d2.blockstore = d1.blockstore ∧ d2.outgoing = d1.outgoing ∧
          d2.detached = d1.detached ∧ d2.PinMgr = d1.PinMgr) ∧
      (∀ (ctx2 : Ctx) (cmds : List PinCommand),
        p ∈ (handlePinCommands ctx2 cmds d1).DB.pins) ∧
      (UniqueContent putFailsShuttle.DB.pins → ∀ (ctx2 : Ctx) (cmds : List PinCommand) (q : Pin),
        q ∈ (handlePinCommands ctx2 cmds d1).DB.pins → q.Content = 9 → q = p) :=
  aggregate_block_failure_strands_pin putFailsShuttle Ctx.TODO ⟨9, 3, [1, 2], ⟨"root"⟩, List.replicate 50 0⟩
    (by decide) (by decide)
    (by intro i hi; simp only [putFailsShuttle, List.length_cons, List.length_nil] at hi ⊢
        simp; omega)
    (Or.inr ⟨rfl, rfl⟩)

/-- The stranded Pin of the example evaluated: the block store write fails,
the handler returns the error, and the aggregate Pin of Size 400 stays
Pinning and not Active, with no Object, ObjRef, block or goroutine. -/
theorem aggregate_put_failure_example :
    (handleRpcAggregateContent putFailsShuttle Ctx.TODO ⟨9, 3, [1, 2], ⟨"root"⟩, List.replicate 50 0⟩).1 = some .external ∧
    (handleRpcAggregateContent putFailsShuttle Ctx.TODO ⟨9, 3, [1, 2], ⟨"root"⟩, List.replicate 50 0⟩).2.DB =
      { pins := twoPinsShuttle.DB.pins ++
          [{ ID := 3, Content := 9, Cid := ⟨"root"⟩, UserID := 3, Size := 400,
             Pinning := true, Aggregate := true }] } ∧
    (handleRpcAggregateContent putFailsShuttle Ctx.TODO ⟨9, 3, [1, 2], ⟨"root"⟩, List.replicate 50 0⟩).2.blockstore = [] ∧
    (handleRpcAggregateContent putFailsShuttle Ctx.TODO ⟨9, 3, [1, 2], ⟨"root"⟩, List.replicate 50 0⟩).2.detached = [] := by
  decide

/-! ### The handlers and goroutines that never write the store -/

theorem sendRpcMessage_DB (d : Shuttle) (ctx : Ctx) (msg : Message) :
    (sendRpcMessage d ctx msg).2.DB = d.DB := by
  simp only [sendRpcMessage]
  split <;> rfl

theorem handleRpcComputeCommP_DB (d : Shuttle) (ctx : Ctx) (cmd : ComputeCommP) :
    (handleRpcComputeCommP d ctx cmd).2.DB = d.DB := by
  simp only [handleRpcComputeCommP]
  split
  · rfl
  · rw [sendRpcMessage_DB]; rfl
  · rfl

/-- A goroutine of rpc.go, whichever it is, changes no row. -/
theorem runGoroutine_DB (d : Shuttle) (g : Goroutine) : (runGoroutine d g).DB = d.DB := by
  cases g with
  | resendPinComplete ctx pin contid size =>
    simp only [runGoroutine, objectsForPin, Shuttle.attempt]
    cases d.failing d.calls <;> simp [sendPinCompleteMessage, sendRpcMessage_DB]
  | pinComplete ctx cont size objects =>
    simp [runGoroutine, sendPinCompleteMessage, sendRpcMessage_DB]
  | startTransfer ctx cmd =>
    simp only [runGoroutine]
    split
    · simp [sendTransferStatusUpdate, sendRpcMessage_DB]
    · rw [sendRpcMessage_DB]; rfl
  | reqTxStatus req =>
    simp only [runGoroutine]
    split
    · rfl
    · simp [sendTransferStatusUpdate, sendRpcMessage_DB]

/-- Whatever the command and whatever fails, handleRpcCmd leaves a row that is
Pinning where and as it is. -/
theorem handleRpcCmd_keeps_pinning_row (p : Pin) (hp : p.Pinning = true) (d : Shuttle)
    (cmd : Command) (hmem : p ∈ d.DB.pins) : p ∈ (handleRpcCmd d cmd).2.DB.pins := by
  unfold handleRpcCmd
  split_ifs
  · cases cmd.Params.AddPin with
    | none => exact hmem
    | some v => exact handlePinCommand_keeps_pinning_row p hp d Ctx.TODO (.addPin v) hmem
  · cases cmd.Params.ComputeCommP with
    | none => exact hmem
    | some v => simp only [handleRpcComputeCommP_DB]; exact hmem
  · cases cmd.Params.TakeContent with
    | none => exact hmem
    | some v => exact handlePinCommand_keeps_pinning_row p hp d Ctx.TODO (.takeContent v) hmem
  · cases cmd.Params.AggregateContent with
    | none => exact hmem
    | some v =>
      exact handlePinCommand_keeps_pinning_row p hp d Ctx.TODO (.aggregateContent v) hmem
  · cases cmd.Params.StartTransfer with
    | none => exact hmem
    | some v => exact hmem
  · cases cmd.Params.ReqTxStatus with
    | none => exact hmem
    | some v => exact hmem
  · exact hmem

end Estuary
